import Mathlib

/-! InfiniteScrollView: a shallow embedding of `src/InfiniteScrollView.js`.

The component is embedded by explicit state passing.

* `State` is the component state with every update requested by `setState` so far applied.
  React applies a `setState` at once when it is called outside its event dispatch (after an
  `await`, from a timer) and when the handler returns when it is called inside a dispatched
  event handler (a scroll event, a press on the retry control).  The definitions thread the
  state with the updates applied, which is the state between two events in both cases;
  `Logged.thisState` gives what `this.state` itself shows at a call made before the handler
  has returned.
* `Props` is the part of `this.props` that the edge-loading logic reads.
* JavaScript numbers are integers here (scroll metrics are compared and added, nothing else).
* Calls that leave the component (the two loaders, `onLoadError`, `onScroll`,
  `scrollTo` on the scroll component, `console.error`) are recorded in a trace, each one
  together with the component state at the moment of the call, updates applied.
* An `async` method is cut at its single `await`: the part before it, and the part that runs
  once the awaited loader has settled.  The settled loader is an `Except Err Unit`
  (`.ok ()` when it resolved, `.error e` when it rejected or threw `e`).
  The other callbacks are taken to return normally.
-/

namespace InfiniteScrollView

/-- Values that are thrown or that a promise rejects with. -/
abbrev Err := String

/-! ## Scroll events -/

/-- The `contentSize` and `layoutMeasurement` members of a native scroll event. -/
structure Size where
  width : Int
  height : Int
deriving DecidableEq, Repr

/-- The `contentInset` member of a native scroll event. -/
structure Inset where
  top : Int
  left : Int
  bottom : Int
  right : Int
deriving DecidableEq, Repr

/-- The `contentOffset` member of a native scroll event. -/
structure Point where
  x : Int
  y : Int
deriving DecidableEq, Repr

/-- The `event.nativeEvent` object read by `_distanceFromEnd` and `_distanceFromTop`. -/
structure NativeEvent where
  contentSize : Size
  contentInset : Inset
  contentOffset : Point
  layoutMeasurement : Size
deriving DecidableEq, Repr

/-- A scroll event. -/
structure Event where
  nativeEvent : NativeEvent
deriving DecidableEq, Repr

/-! ## Props and state -/

/-- The value of `canLoadMoreBottom` / `canLoadMoreTop`:
`PropTypes.oneOfType([PropTypes.func, PropTypes.bool])`. -/
inductive Capability where
  | static (value : Bool)
  | predicate (fn : Unit → Bool)

/-- The expression `(typeof c === 'function') ? c() : c` of `_shouldLoadMoreBottom` and
`_shouldLoadMoreTop` (lines 161-163 and 172-174). -/
def Capability.evaluate : Capability → Bool
  | .static value => value
  | .predicate fn => fn ()

/-- JavaScript truthiness of the prop value itself, as in `if (this.props.canLoadMoreTop)`
(line 137) and `this.props.canLoadMoreTop && ...` (lines 99 and 114): a boolean is its own
value, a function object is always truthy. -/
def Capability.truthy : Capability → Bool
  | .static value => value
  | .predicate _ => true

/-- The props read by the edge-loading logic.  `onLoadError` and `onScroll` are optional
callbacks: the field tells whether one is supplied.  The two loaders are required props and
appear as calls in the trace. -/
structure Props where
  horizontal : Bool
  distanceToLoadMoreBottom : Int
  distanceToLoadMoreTop : Int
  topLoadingIndicatorHeight : Int
  canLoadMoreBottom : Capability
  canLoadMoreTop : Capability
  onLoadError : Bool
  onScroll : Bool

/-- The values of `static defaultProps` (lines 40-51) for the props modelled here; the
optional props that have no default are absent. -/
def defaultProps : Props where
  horizontal := false
  distanceToLoadMoreBottom := 150
  distanceToLoadMoreTop := 50
  topLoadingIndicatorHeight := 100
  canLoadMoreBottom := .static false
  canLoadMoreTop := .static false
  onLoadError := false
  onScroll := false

/-- The component state `this.state`.  The constructor does not set `isLoadingBottom` and
`isLoadingTop`, so they are `undefined` (`none`) until the first load of the edge. -/
structure State where
  isLoadingBottom : Option Bool
  isLoadingTop : Option Bool
  isDisplayingErrorBottom : Bool
  isDisplayingErrorTop : Bool
  canShowTopIndicator : Bool
deriving DecidableEq, Repr

/-- JavaScript truthiness of a state field that is `undefined`, `false` or `true`. -/
def truthy : Option Bool → Bool
  | some true => true
  | _ => false

/-- The state set by the constructor (lines 56-60); `platformOS` is `Platform.OS`. -/
def constructor (platformOS : String) : State where
  isLoadingBottom := none
  isLoadingTop := none
  isDisplayingErrorBottom := false
  isDisplayingErrorTop := false
  canShowTopIndicator := platformOS != "android"

/-! ## Calls that leave the component -/

/-- A call made by the component to one of its collaborators. -/
inductive Call where
  | onScroll (event : Event)
  | onLoadMoreAsyncBottom
  | onLoadMoreAsyncTop
  | onLoadError (e : Err) (edge : String)
  | scrollTo (x : Int) (y : Int) (animated : Bool)
  | consoleError (message : String) (e : Err)
deriving DecidableEq, Repr

/-- A call together with the component state at the moment it is made, every update
requested so far applied. -/
structure Logged where
  call : Call
  stateAt : State
deriving DecidableEq, Repr

/-- What `this.state` shows at a call made before the handler that makes it has returned.
Outside React's event dispatch a `setState` is applied at once and `this.state` is
`stateAt`.  Inside a dispatched event handler (`batched`) the updates wait for the handler
to return, and `this.state` is still `entry`, the state the handler was entered in. -/
def Logged.thisState (batched : Bool) (entry : State) (l : Logged) : State :=
  if batched then entry else l.stateAt

/-- Whether a call is a `scrollTo` on the scroll component. -/
def Call.isScrollTo : Call → Bool
  | .scrollTo _ _ _ => true
  | _ => false

/-- Whether a call is an invocation of `onLoadError`. -/
def Call.isOnLoadError : Call → Bool
  | .onLoadError _ _ => true
  | _ => false

/-- The calls of a trace, without the state snapshots. -/
def calls (trace : List Logged) : List Call :=
  trace.map Logged.call

/-- The `scrollTo` calls of a trace, in order, each with the state it was made in. -/
def scrollCalls (trace : List Logged) : List Logged :=
  trace.filter fun l => l.call.isScrollTo

/-- The `onLoadError` calls of a trace, in order. -/
def errorReports (trace : List Logged) : List Call :=
  (calls trace).filter Call.isOnLoadError

/-! ## Distances (lines 219-264) -/

/-- The method `_distanceFromEnd(event)`. -/
def _distanceFromEnd (p : Props) (event : Event) : Int :=
  let contentSize := event.nativeEvent.contentSize
  let contentInset := event.nativeEvent.contentInset
  let contentOffset := event.nativeEvent.contentOffset
  let layoutMeasurement := event.nativeEvent.layoutMeasurement
  let contentLength := if p.horizontal then contentSize.width else contentSize.height
  let trailingInset := if p.horizontal then contentInset.right else contentInset.bottom
  let scrollOffset := if p.horizontal then contentOffset.x else contentOffset.y
  let viewportLength := if p.horizontal then layoutMeasurement.width else layoutMeasurement.height
  contentLength + trailingInset - scrollOffset - viewportLength

/-- The method `_distanceFromTop(event)`. -/
def _distanceFromTop (p : Props) (event : Event) : Int :=
  let contentInset := event.nativeEvent.contentInset
  let contentOffset := event.nativeEvent.contentOffset
  let leadingInset := if p.horizontal then contentInset.left else contentInset.top
  let scrollOffset := if p.horizontal then contentOffset.x else contentOffset.y
  scrollOffset - leadingInset

/-! ## Triggers (lines 160-180) -/

/-- The method `_shouldLoadMoreBottom(event)`. -/
def _shouldLoadMoreBottom (p : Props) (s : State) (event : Event) : Bool :=
  let canLoadMore := p.canLoadMoreBottom.evaluate
  !truthy s.isLoadingBottom &&
    canLoadMore &&
    !s.isDisplayingErrorBottom &&
    decide (_distanceFromEnd p event < p.distanceToLoadMoreBottom)

/-- The method `_shouldLoadMoreTop(event)`. -/
def _shouldLoadMoreTop (p : Props) (s : State) (event : Event) : Bool :=
  let canLoadMore := p.canLoadMoreTop.evaluate
  !truthy s.isLoadingTop &&
    canLoadMore &&
    !s.isDisplayingErrorTop &&
    decide (_distanceFromTop p event < p.distanceToLoadMoreTop)

/-! ## Offset compensation (lines 135-140) -/

/-- The method `_offsetTopIndicator()`: the new state and the calls made. -/
def _offsetTopIndicator (p : Props) (s : State) : State × List Logged :=
  let s1 := { s with canShowTopIndicator := true }
  if p.canLoadMoreTop.truthy then
    (s1, [⟨.scrollTo 0 p.topLoadingIndicatorHeight false, s1⟩])
  else
    (s1, [])

/-! ## Loading an edge (lines 182-217) -/

/-- What a call of an `async` method has done so far: whether the edge's `isLoading` was
true when it was called (the state part of the guard on lines 183 and 201), whether the
promise is rejected (`.error`), the component state and the calls made. -/
structure Run where
  alreadyLoading : Bool
  result : Except Err Unit
  state : State
  trace : List Logged

/-- The method `_loadMoreAsyncBottom()` up to its `await` (lines 183-189): the guard, the
first `setState` and the call of the loader, logged with that update applied (see
`Logged.thisState`).  `dev` is `__DEV__`. -/
def _loadMoreAsyncBottom_beforeAwait (dev : Bool) (s : State) : Run :=
  if truthy s.isLoadingBottom && dev then
    ⟨truthy s.isLoadingBottom, .error "_loadMoreAsyncBottom called while isLoadingBottom is true",
      s, []⟩
  else
    let s1 := { s with isDisplayingErrorBottom := false, isLoadingBottom := some true }
    ⟨truthy s.isLoadingBottom, .ok (), s1, [⟨.onLoadMoreAsyncBottom, s1⟩]⟩

/-- The method `_loadMoreAsyncBottom()` from the moment the awaited loader has settled
(lines 190-197): the `catch` block when it failed, then the `finally` block. -/
def _loadMoreAsyncBottom_afterAwait (p : Props) (settled : Except Err Unit) (s : State) :
    State × List Logged :=
  let caught : State × List Logged :=
    match settled with
    | .ok _ => (s, [])
    | .error e =>
      let reported : List Logged := if p.onLoadError then [⟨.onLoadError e "bottom", s⟩] else []
      ({ s with isDisplayingErrorBottom := true }, reported)
  ({ caught.1 with isLoadingBottom := some false }, caught.2)

/-- The method `_loadMoreAsyncBottom()` run to completion with a loader that settles as
`settled`. -/
def _loadMoreAsyncBottom (dev : Bool) (p : Props) (settled : Except Err Unit) (s : State) : Run :=
  let started := _loadMoreAsyncBottom_beforeAwait dev s
  match started.result with
  | .error _ => started
  | .ok _ =>
    let finished := _loadMoreAsyncBottom_afterAwait p settled started.state
    { started with state := finished.1, trace := started.trace ++ finished.2 }

/-- The method `_loadMoreAsyncTop()` up to its `await` (lines 201-207): the guard, the first
`setState` and the call of the loader, logged with that update applied (see
`Logged.thisState`). -/
def _loadMoreAsyncTop_beforeAwait (dev : Bool) (s : State) : Run :=
  if truthy s.isLoadingTop && dev then
    ⟨truthy s.isLoadingTop, .error "_loadMoreAsyncTop called while isLoadingTop is true", s, []⟩
  else
    let s1 := { s with isDisplayingErrorTop := false, isLoadingTop := some true }
    ⟨truthy s.isLoadingTop, .ok (), s1, [⟨.onLoadMoreAsyncTop, s1⟩]⟩

/-- The method `_loadMoreAsyncTop()` from the moment the awaited loader has settled
(lines 208-216): the `catch` block when it failed, then the `finally` block, which ends
with `_offsetTopIndicator()`. -/
def _loadMoreAsyncTop_afterAwait (p : Props) (settled : Except Err Unit) (s : State) :
    State × List Logged :=
  let caught : State × List Logged :=
    match settled with
    | .ok _ => (s, [])
    | .error e =>
      let reported : List Logged := if p.onLoadError then [⟨.onLoadError e "top", s⟩] else []
      ({ s with isDisplayingErrorTop := true }, reported)
  let offset := _offsetTopIndicator p { caught.1 with isLoadingTop := some false }
  (offset.1, caught.2 ++ offset.2)

/-- The method `_loadMoreAsyncTop()` run to completion with a loader that settles as
`settled`. -/
def _loadMoreAsyncTop (dev : Bool) (p : Props) (settled : Except Err Unit) (s : State) : Run :=
  let started := _loadMoreAsyncTop_beforeAwait dev s
  match started.result with
  | .error _ => started
  | .ok _ =>
    let finished := _loadMoreAsyncTop_afterAwait p settled started.state
    { started with state := finished.1, trace := started.trace ++ finished.2 }

/-! ## The scroll handler (lines 142-158) -/

/-- What `_handleScroll` has done when the rejection handlers of the promises it created
have run: the state, the calls made, and for each edge the call of `_loadMoreAsync<Edge>`
it made up to the `await`, if it made one. -/
structure Handled where
  state : State
  trace : List Logged
  bottom : Option Run
  top : Option Run

/-- The handler given to `.catch` on lines 148-150 and 154-156: it logs the error a promise
was rejected with. -/
def unexpected (s : State) : Option Run → List Logged
  | some ⟨_, .error e, _, _⟩ => [⟨.consoleError "Unexpected error while loading more content:" e, s⟩]
  | _ => []

/-- The method `_handleScroll(event)`.  The loads it starts are left at their `await`. -/
def _handleScroll (dev : Bool) (p : Props) (event : Event) (s : State) : Handled :=
  let forwarded : List Logged := if p.onScroll then [⟨.onScroll event, s⟩] else []
  let bottom : Option Run :=
    if _shouldLoadMoreBottom p s event then some (_loadMoreAsyncBottom_beforeAwait dev s) else none
  let s1 := match bottom with
    | some r => r.state
    | none => s
  let top : Option Run :=
    if _shouldLoadMoreTop p s1 event then some (_loadMoreAsyncTop_beforeAwait dev s1) else none
  let s2 := match top with
    | some r => r.state
    | none => s1
  let made (r : Option Run) : List Logged := match r with
    | some r => r.trace
    | none => []
  { state := s2
    trace := forwarded ++ made bottom ++ made top ++ unexpected s2 bottom ++ unexpected s2 top
    bottom := bottom
    top := top }

/-! ## Status indicators (lines 88-119) -/

/-- The two bound methods that `render` hands out as `onRetryLoadMore`. -/
inductive Handler where
  | _loadMoreAsyncTop
  | _loadMoreAsyncBottom
deriving DecidableEq, Repr

/-- A status indicator element: the error indicator, made by `renderLoadingErrorIndicator`
from the retry callback, or a loading indicator; each with the `key` it is cloned with. -/
inductive Indicator where
  | error (onRetryLoadMore : Handler) (key : String)
  | loading (key : String)
deriving DecidableEq, Repr

/-- The two status indicators chosen by `render`; `none` is `undefined`. -/
structure Rendered where
  statusIndicatorTop : Option Indicator
  statusIndicatorBottom : Option Indicator
deriving DecidableEq, Repr

/-- The choice of the status indicators in `render()` (lines 89-119). -/
def render (p : Props) (s : State) : Rendered :=
  let statusIndicatorTop : Option Indicator :=
    if s.isDisplayingErrorTop then
      some (.error ._loadMoreAsyncTop "loading-error-indicator-top")
    else if p.canLoadMoreTop.truthy && s.canShowTopIndicator then
      some (.loading "loading-indicator-top")
    else
      none
  let statusIndicatorBottom : Option Indicator :=
    if s.isDisplayingErrorBottom then
      some (.error ._loadMoreAsyncBottom "loading-error-indicator-bottom")
    else if p.canLoadMoreBottom.truthy then
      some (.loading "loading-indicator-bottom")
    else
      none
  { statusIndicatorTop := statusIndicatorTop, statusIndicatorBottom := statusIndicatorBottom }

/-! ## The component over time

Between two events the component rests in a `Machine`: its state, and for each edge the
number of calls of `_loadMoreAsync<Edge>` that are at their `await`.  `reentrant` counts the
calls of `_loadMoreAsync<Edge>` that were made while that edge's `isLoading` was true. -/

/-- The two edges. -/
inductive Edge where
  | top
  | bottom
deriving DecidableEq, Repr

/-- The component between two events. -/
structure Machine where
  state : State
  inFlightBottom : Nat
  inFlightTop : Nat
  reentrant : Nat
deriving DecidableEq, Repr

/-- What can happen to a mounted component.  Every event comes with the props of that
moment, so props may change between events.
* `scroll`: the scroll component emits a scroll event;
* `retry`: the retry callback of the error indicator rendered for the edge is called;
* `settle`: the loader awaited by a load of the edge resolves or rejects;
* `offset`: the call of `_offsetTopIndicator` made by `componentDidMount`, at once or
  deferred (lines 75-85). -/
inductive Action where
  | scroll (p : Props) (event : Event)
  | retry (edge : Edge) (p : Props)
  | settle (edge : Edge) (p : Props) (settled : Except Err Unit)
  | offset (p : Props)

/-- The mounted component before any event; `platformOS` is `Platform.OS`. -/
def Machine.initial (platformOS : String) : Machine where
  state := constructor platformOS
  inFlightBottom := 0
  inFlightTop := 0
  reentrant := 0

/-- Calling the bound method `h`, up to its `await`. -/
def Handler.call (dev : Bool) (s : State) : Handler → Run
  | ._loadMoreAsyncTop => _loadMoreAsyncTop_beforeAwait dev s
  | ._loadMoreAsyncBottom => _loadMoreAsyncBottom_beforeAwait dev s

/-- The edge a bound method loads. -/
def Handler.edge : Handler → Edge
  | ._loadMoreAsyncTop => .top
  | ._loadMoreAsyncBottom => .bottom

/-- Book-keeping for a call of `_loadMoreAsync<Edge>` that ran up to its `await` as `r`: a
call that was not rejected is now in flight, a call made while the edge was loading is
counted as reentrant. -/
def Machine.record (edge : Edge) (r : Option Run) (m : Machine) : Machine :=
  match r with
  | none => m
  | some r =>
    let started : Nat := match r.result with
      | .ok _ => 1
      | .error _ => 0
    let again : Nat := if r.alreadyLoading then 1 else 0
    match edge with
    | .bottom =>
      { m with inFlightBottom := m.inFlightBottom + started, reentrant := m.reentrant + again }
    | .top =>
      { m with inFlightTop := m.inFlightTop + started, reentrant := m.reentrant + again }

/-- The component after a call of the bound method `h` has run up to its `await`. -/
def Machine.start (dev : Bool) (h : Handler) (m : Machine) : Machine :=
  let r := h.call dev m.state
  Machine.record h.edge (some r) { m with state := r.state }

/-- The indicator rendered for an edge. -/
def Rendered.indicator (r : Rendered) : Edge → Option Indicator
  | .top => r.statusIndicatorTop
  | .bottom => r.statusIndicatorBottom

/-- One event.  `none` when the event cannot happen: a retry needs the error indicator of
that edge to be rendered, a loader can only settle for a load that is in flight. -/
def Machine.step (dev : Bool) (m : Machine) : Action → Option Machine
  | .scroll p event =>
    let h := _handleScroll dev p event m.state
    some (Machine.record .top h.top (Machine.record .bottom h.bottom { m with state := h.state }))
  | .retry edge p =>
    match (render p m.state).indicator edge with
    | some (.error onRetryLoadMore _) => some (Machine.start dev onRetryLoadMore m)
    | _ => none
  | .settle .bottom p settled =>
    if m.inFlightBottom = 0 then none
    else
      some { m with
        state := (_loadMoreAsyncBottom_afterAwait p settled m.state).1
        inFlightBottom := m.inFlightBottom - 1 }
  | .settle .top p settled =>
    if m.inFlightTop = 0 then none
    else
      some { m with
        state := (_loadMoreAsyncTop_afterAwait p settled m.state).1
        inFlightTop := m.inFlightTop - 1 }
  | .offset p => some { m with state := (_offsetTopIndicator p m.state).1 }

/-- A sequence of events, from left to right; `none` when one of them cannot happen. -/
def Machine.run (dev : Bool) (m : Machine) : List Action → Option Machine
  | [] => some m
  | a :: rest =>
    match Machine.step dev m a with
    | some m1 => Machine.run dev m1 rest
    | none => none

/-! ## The two edges side by side -/

/-- The `isLoading<Edge>` field of the state. -/
def State.isLoading (s : State) : Edge → Option Bool
  | .top => s.isLoadingTop
  | .bottom => s.isLoadingBottom

/-- The `isDisplayingError<Edge>` field of the state. -/
def State.isDisplayingError (s : State) : Edge → Bool
  | .top => s.isDisplayingErrorTop
  | .bottom => s.isDisplayingErrorBottom

/-- The trigger `_shouldLoadMore<Edge>` of an edge. -/
def shouldLoadMore : Edge → Props → State → Event → Bool
  | .top => _shouldLoadMoreTop
  | .bottom => _shouldLoadMoreBottom

/-- The method `_loadMoreAsync<Edge>` of an edge, run to completion. -/
def loadMoreAsync : Edge → Bool → Props → Except Err Unit → State → Run
  | .top => _loadMoreAsyncTop
  | .bottom => _loadMoreAsyncBottom

/-- The method `_loadMoreAsync<Edge>` of an edge up to its `await`. -/
def loadMoreAsyncBeforeAwait : Edge → Bool → State → Run
  | .top => _loadMoreAsyncTop_beforeAwait
  | .bottom => _loadMoreAsyncBottom_beforeAwait

/-- The call of the loader of an edge, `this.props.onLoadMoreAsync<Edge>()`. -/
def Edge.loader : Edge → Call
  | .top => .onLoadMoreAsyncTop
  | .bottom => .onLoadMoreAsyncBottom

/-- What holds of the component between any two events: an edge has a load in flight exactly
when its `isLoading` is true, and then only one; an edge is never both loading and
displaying an error; `_loadMoreAsync<Edge>` has never been called for an edge that was
loading. -/
def Machine.Inv (m : Machine) : Prop :=
  m.inFlightBottom = (if truthy m.state.isLoadingBottom then 1 else 0) ∧
  m.inFlightTop = (if truthy m.state.isLoadingTop then 1 else 0) ∧
  (truthy m.state.isLoadingBottom && m.state.isDisplayingErrorBottom) = false ∧
  (truthy m.state.isLoadingTop && m.state.isDisplayingErrorTop) = false ∧
  m.reentrant = 0

/-! ## The scenarios of the specification -/

/-- The default props (thresholds 150 and 50, vertical) with both capabilities true. -/
def scenarioProps : Props :=
  { defaultProps with canLoadMoreBottom := .static true, canLoadMoreTop := .static true }

/-- A vertical scroll event with content 1000, viewport 500, no insets and the given scroll
offset. -/
def scenarioEvent (scrollOffset : Int) : Event :=
  ⟨⟨⟨320, 1000⟩, ⟨0, 0, 0, 0⟩, ⟨0, scrollOffset⟩, ⟨320, 500⟩⟩⟩

/-! ## A run on short content -/

/-- Props with both capabilities true: the bottom one a static value, the top one a
predicate. -/
def shortContentProps : Props :=
  { defaultProps with
    canLoadMoreBottom := .static true
    canLoadMoreTop := .predicate fun _ => true }

/-- A scroll event on content shorter than the viewport: content 100, viewport 500,
offset 0, no insets. -/
def shortContentEvent : Event :=
  ⟨⟨⟨320, 100⟩, ⟨0, 0, 0, 0⟩, ⟨0, 0⟩, ⟨320, 500⟩⟩⟩

/-- One scroll event starts both loads, the bottom loader rejects, a second scroll event
starts nothing, the bottom load is retried from its error indicator, the top loader
resolves. -/
def shortContentRun : List Action :=
  [.scroll shortContentProps shortContentEvent,
    .settle .bottom shortContentProps (.error "offline"),
    .scroll shortContentProps shortContentEvent,
    .retry .bottom shortContentProps,
    .settle .top shortContentProps (.ok ())]

/-! ## Mounting (lines 75-85) -/

/-- What `componentDidMount()` has done when it returns: the state, the calls made, and
whether the call of `_offsetTopIndicator` was handed to
`InteractionManager.runAfterInteractions` and `setTimeout` instead of being made. -/
structure Mounted where
  state : State
  trace : List Logged
  deferred : Bool

/-- The method `componentDidMount()`; `platformOS` is `Platform.OS`.  The deferred call is
the event `Action.offset`. -/
def componentDidMount (platformOS : String) (p : Props) (s : State) : Mounted :=
  if platformOS == "android" then
    ⟨s, [], true⟩
  else
    ⟨(_offsetTopIndicator p s).1, (_offsetTopIndicator p s).2, false⟩

/-- Whether an event is the call of `_offsetTopIndicator` made for `componentDidMount`. -/
def Action.isOffset : Action → Bool
  | .offset _ => true
  | _ => false

/-- Whether an event is the settling of the loader awaited by a top load. -/
def Action.settlesTop : Action → Bool
  | .settle .top _ _ => true
  | _ => false

/-! ## Reading an event -/

/-- The event with its two axes exchanged: width and height, x and y, and the insets of the
two axes (top with left, bottom with right). -/
def Event.exchangeAxes (event : Event) : Event :=
  { nativeEvent :=
    { contentSize :=
        ⟨event.nativeEvent.contentSize.height, event.nativeEvent.contentSize.width⟩
      contentInset :=
        { top := event.nativeEvent.contentInset.left
          left := event.nativeEvent.contentInset.top
          bottom := event.nativeEvent.contentInset.right
          right := event.nativeEvent.contentInset.bottom }
      contentOffset :=
        ⟨event.nativeEvent.contentOffset.y, event.nativeEvent.contentOffset.x⟩
      layoutMeasurement :=
        ⟨event.nativeEvent.layoutMeasurement.height,
          event.nativeEvent.layoutMeasurement.width⟩ } }

/-- The local `scrollOffset` of `_distanceFromEnd` and `_distanceFromTop`: the content
offset on the scrolling axis. -/
def scrollOffset (p : Props) (event : Event) : Int :=
  if p.horizontal then event.nativeEvent.contentOffset.x else event.nativeEvent.contentOffset.y

/-- The event with another content offset and everything else as it is. -/
def Event.withContentOffset (event : Event) (contentOffset : Point) : Event :=
  { nativeEvent := { event.nativeEvent with contentOffset := contentOffset } }

/-- The calls of the loader of an edge in a trace, in order, each with the state it was
made in. -/
def loaderCalls (edge : Edge) (trace : List Logged) : List Logged :=
  trace.filter fun l => l.call == edge.loader

/-! ## A retry -/

/-- The state left by a top load on the freshly constructed component whose loader rejected:
the top edge displays an error and is not loading. -/
def failedTopState : State :=
  (_loadMoreAsyncTop true scenarioProps (.error "offline") (constructor "ios")).state

/-! ## A top load before the deferred mount call -/

/-- A scroll to the very top starts a top load (and no bottom load), then the top loader
resolves; `_offsetTopIndicator` has not been called for `componentDidMount`. -/
def topLoadRun : List Action :=
  [.scroll scenarioProps (scenarioEvent 0), .settle .top scenarioProps (.ok ())]

/-! # Properties -/

/-- Claim C1.  `_shouldLoadMoreBottom` is true exactly when `isLoadingBottom` is not true,
the capability is true (the value of `canLoadMoreBottom` when it is a static boolean, the
result of calling it when it is a function), `isDisplayingErrorBottom` is false and
`_distanceFromEnd(event)` is strictly below `distanceToLoadMoreBottom`.  With threshold 150,
content 1000, inset 0 and viewport 500 (vertical): offset 360 gives distance 140 and
triggers a load that is otherwise allowed, offset 200 gives distance 300 and does not
trigger. -/
theorem shouldLoadMoreBottom_iff :
    (∀ (p : Props) (s : State) (event : Event) (value : Bool),
      p.canLoadMoreBottom = .static value →
      (_shouldLoadMoreBottom p s event = true ↔
        (s.isLoadingBottom ≠ some true ∧ value = true ∧
          s.isDisplayingErrorBottom = false ∧
          _distanceFromEnd p event < p.distanceToLoadMoreBottom))) ∧
    (∀ (p : Props) (s : State) (event : Event) (fn : Unit → Bool),
      p.canLoadMoreBottom = .predicate fn →
      (_shouldLoadMoreBottom p s event = true ↔
        (s.isLoadingBottom ≠ some true ∧ fn () = true ∧
          s.isDisplayingErrorBottom = false ∧
          _distanceFromEnd p event < p.distanceToLoadMoreBottom))) ∧
    (∀ (p : Props) (s : State) (event : Event),
      p.horizontal = false → p.distanceToLoadMoreBottom = 150 →
      event.nativeEvent.contentSize.height = 1000 →
      event.nativeEvent.contentInset.bottom = 0 →
      event.nativeEvent.layoutMeasurement.height = 500 →
      (event.nativeEvent.contentOffset.y = 360 →
        _distanceFromEnd p event = 140 ∧
        (s.isLoadingBottom ≠ some true →
          (p.canLoadMoreBottom = .static true ∨
            ∃ fn : Unit → Bool, p.canLoadMoreBottom = .predicate fn ∧ fn () = true) →
          s.isDisplayingErrorBottom = false → _shouldLoadMoreBottom p s event = true)) ∧
      (event.nativeEvent.contentOffset.y = 200 →
        _distanceFromEnd p event = 300 ∧ _shouldLoadMoreBottom p s event = false)) := by
  have key : ∀ (p : Props) (s : State) (event : Event),
      _shouldLoadMoreBottom p s event = true ↔
        (s.isLoadingBottom ≠ some true ∧ p.canLoadMoreBottom.evaluate = true ∧
          s.isDisplayingErrorBottom = false ∧
          _distanceFromEnd p event < p.distanceToLoadMoreBottom) := by
    intro p s event
    rcases hl : s.isLoadingBottom with _ | _ | _ <;>
      simp [_shouldLoadMoreBottom, truthy, hl, and_assoc]
  refine ⟨?_, ?_, ?_⟩
  · intro p s event value hc
    rw [key, hc]
    rfl
  · intro p s event fn hc
    rw [key, hc]
    rfl
  intro p s event hh ht hc hi hv
  have hd : _distanceFromEnd p event = 1000 - event.nativeEvent.contentOffset.y - 500 := by
    simp [_distanceFromEnd, hh, hc, hi, hv]
  constructor
  · intro ho
    have h140 : _distanceFromEnd p event = 140 := by rw [hd, ho]; norm_num
    refine ⟨h140, fun h1 h2 h3 => (key p s event).2 ⟨h1, ?_, h3, ?_⟩⟩
    · rcases h2 with h2 | ⟨fn, h2, h4⟩
      · rw [h2]; rfl
      · rw [h2]; exact h4
    · rw [h140, ht]; norm_num
  · intro ho
    have h300 : _distanceFromEnd p event = 300 := by rw [hd, ho]; norm_num
    refine ⟨h300, ?_⟩
    cases hb : _shouldLoadMoreBottom p s event
    · rfl
    · have := ((key p s event).1 hb).2.2.2
      rw [h300, ht] at this
      exact absurd this (by norm_num)

/-- Scenarios A and B of claim C1 on the freshly constructed component with the static
capability `true`; scenario A with a predicate that returns true (triggers), with a
predicate that returns false and with the static capability `false` (no trigger). -/
theorem shouldLoadMoreBottom_iff_witness :
    (_distanceFromEnd scenarioProps (scenarioEvent 360) = 140 ∧
      _shouldLoadMoreBottom scenarioProps (constructor "ios") (scenarioEvent 360) = true) ∧
    (_distanceFromEnd scenarioProps (scenarioEvent 200) = 300 ∧
      _shouldLoadMoreBottom scenarioProps (constructor "ios") (scenarioEvent 200) = false) ∧
    _shouldLoadMoreBottom { scenarioProps with canLoadMoreBottom := .predicate fun _ => true }
      (constructor "ios") (scenarioEvent 360) = true ∧
    _shouldLoadMoreBottom { scenarioProps with canLoadMoreBottom := .predicate fun _ => false }
      (constructor "ios") (scenarioEvent 360) = false ∧
    _shouldLoadMoreBottom { scenarioProps with canLoadMoreBottom := .static false }
      (constructor "ios") (scenarioEvent 360) = false :=
  ⟨⟨((shouldLoadMoreBottom_iff.2.2 scenarioProps (constructor "ios") (scenarioEvent 360)
        rfl rfl rfl rfl rfl).1 rfl).1,
      ((shouldLoadMoreBottom_iff.2.2 scenarioProps (constructor "ios") (scenarioEvent 360)
        rfl rfl rfl rfl rfl).1 rfl).2 (by decide) (Or.inl rfl) rfl⟩,
    (shouldLoadMoreBottom_iff.2.2 scenarioProps (constructor "ios") (scenarioEvent 200)
      rfl rfl rfl rfl rfl).2 rfl,
    (shouldLoadMoreBottom_iff.2.1
      { scenarioProps with canLoadMoreBottom := .predicate fun _ => true }
      (constructor "ios") (scenarioEvent 360) (fun _ => true) rfl).2
      ⟨by decide, rfl, rfl, by decide⟩,
    Bool.eq_false_iff.2 fun h =>
      Bool.false_ne_true
        ((shouldLoadMoreBottom_iff.2.1
          { scenarioProps with canLoadMoreBottom := .predicate fun _ => false }
          (constructor "ios") (scenarioEvent 360) (fun _ => false) rfl).1 h).2.1,
    Bool.eq_false_iff.2 fun h =>
      Bool.false_ne_true
        ((shouldLoadMoreBottom_iff.1
          { scenarioProps with canLoadMoreBottom := .static false }
          (constructor "ios") (scenarioEvent 360) false rfl).1 h).2.1⟩

/-- Claim C2.  `_shouldLoadMoreTop` is true exactly when `isLoadingTop` is not true, the
capability is true (the value of `canLoadMoreTop` when it is a static boolean, the result
of calling it when it is a function), `isDisplayingErrorTop` is false and
`_distanceFromTop(event)` is strictly below `distanceToLoadMoreTop`.  With leading inset 0,
offset 30 and threshold 50 (vertical) a load that is otherwise allowed is triggered; a
distance equal to the threshold never triggers. -/
theorem shouldLoadMoreTop_iff :
    (∀ (p : Props) (s : State) (event : Event) (value : Bool),
      p.canLoadMoreTop = .static value →
      (_shouldLoadMoreTop p s event = true ↔
        (s.isLoadingTop ≠ some true ∧ value = true ∧
          s.isDisplayingErrorTop = false ∧
          _distanceFromTop p event < p.distanceToLoadMoreTop))) ∧
    (∀ (p : Props) (s : State) (event : Event) (fn : Unit → Bool),
      p.canLoadMoreTop = .predicate fn →
      (_shouldLoadMoreTop p s event = true ↔
        (s.isLoadingTop ≠ some true ∧ fn () = true ∧
          s.isDisplayingErrorTop = false ∧
          _distanceFromTop p event < p.distanceToLoadMoreTop))) ∧
    (∀ (p : Props) (s : State) (event : Event),
      p.horizontal = false → p.distanceToLoadMoreTop = 50 →
      event.nativeEvent.contentInset.top = 0 →
      event.nativeEvent.contentOffset.y = 30 →
      _distanceFromTop p event = 30 ∧
      (s.isLoadingTop ≠ some true →
        (p.canLoadMoreTop = .static true ∨
          ∃ fn : Unit → Bool, p.canLoadMoreTop = .predicate fn ∧ fn () = true) →
        s.isDisplayingErrorTop = false → _shouldLoadMoreTop p s event = true)) ∧
    (∀ (p : Props) (s : State) (event : Event),
      _distanceFromTop p event = p.distanceToLoadMoreTop →
      _shouldLoadMoreTop p s event = false) := by
  have key : ∀ (p : Props) (s : State) (event : Event),
      _shouldLoadMoreTop p s event = true ↔
        (s.isLoadingTop ≠ some true ∧ p.canLoadMoreTop.evaluate = true ∧
          s.isDisplayingErrorTop = false ∧
          _distanceFromTop p event < p.distanceToLoadMoreTop) := by
    intro p s event
    rcases hl : s.isLoadingTop with _ | _ | _ <;>
      simp [_shouldLoadMoreTop, truthy, hl, and_assoc]
  refine ⟨?_, ?_, ?_, ?_⟩
  · intro p s event value hc
    rw [key, hc]
    rfl
  · intro p s event fn hc
    rw [key, hc]
    rfl
  · intro p s event hh ht hi ho
    have h30 : _distanceFromTop p event = 30 := by
      simp [_distanceFromTop, hh, hi, ho]
    refine ⟨h30, fun h1 h2 h3 => (key p s event).2 ⟨h1, ?_, h3, ?_⟩⟩
    · rcases h2 with h2 | ⟨fn, h2, h4⟩
      · rw [h2]; rfl
      · rw [h2]; exact h4
    · rw [h30, ht]; norm_num
  · intro p s event he
    cases hb : _shouldLoadMoreTop p s event
    · rfl
    · have := ((key p s event).1 hb).2.2.2
      rw [he] at this
      exact absurd this (lt_irrefl _)

/-- Scenario C of claim C2 on the freshly constructed component with the static capability
`true`, and an offset of 50, equal to the threshold; scenario C with a predicate that
returns true (triggers), with a predicate that returns false and with the static capability
`false` (no trigger). -/
theorem shouldLoadMoreTop_iff_witness :
    (_distanceFromTop scenarioProps (scenarioEvent 30) = 30 ∧
      _shouldLoadMoreTop scenarioProps (constructor "ios") (scenarioEvent 30) = true) ∧
    _shouldLoadMoreTop scenarioProps (constructor "ios") (scenarioEvent 50) = false ∧
    _shouldLoadMoreTop { scenarioProps with canLoadMoreTop := .predicate fun _ => true }
      (constructor "ios") (scenarioEvent 30) = true ∧
    _shouldLoadMoreTop { scenarioProps with canLoadMoreTop := .predicate fun _ => false }
      (constructor "ios") (scenarioEvent 30) = false ∧
    _shouldLoadMoreTop { scenarioProps with canLoadMoreTop := .static false }
      (constructor "ios") (scenarioEvent 30) = false :=
  ⟨⟨(shouldLoadMoreTop_iff.2.2.1 scenarioProps (constructor "ios") (scenarioEvent 30)
        rfl rfl rfl rfl).1,
      (shouldLoadMoreTop_iff.2.2.1 scenarioProps (constructor "ios") (scenarioEvent 30)
        rfl rfl rfl rfl).2 (by decide) (Or.inl rfl) rfl⟩,
    shouldLoadMoreTop_iff.2.2.2 scenarioProps (constructor "ios") (scenarioEvent 50) rfl,
    (shouldLoadMoreTop_iff.2.1
      { scenarioProps with canLoadMoreTop := .predicate fun _ => true }
      (constructor "ios") (scenarioEvent 30) (fun _ => true) rfl).2
      ⟨by decide, rfl, rfl, by decide⟩,
    Bool.eq_false_iff.2 fun h =>
      Bool.false_ne_true
        ((shouldLoadMoreTop_iff.2.1
          { scenarioProps with canLoadMoreTop := .predicate fun _ => false }
          (constructor "ios") (scenarioEvent 30) (fun _ => false) rfl).1 h).2.1,
    Bool.eq_false_iff.2 fun h =>
      Bool.false_ne_true
        ((shouldLoadMoreTop_iff.1
          { scenarioProps with canLoadMoreTop := .static false }
          (constructor "ios") (scenarioEvent 30) false rfl).1 h).2.1⟩

/-- Claim C3.  For each edge and every state in which that edge is not loading: when the
loader rejects with `e`, the completed `_loadMoreAsync<Edge>` leaves the edge's `isLoading`
false and its `isDisplayingError` true, and `onLoadError`, when supplied, has been called
exactly once, with `(e, 'bottom')` for the bottom edge and `(e, 'top')` for the top edge
(and is not called when it is not supplied). -/
theorem loadMoreAsync_rejected (edge : Edge) (dev : Bool) (p : Props) (e : Err) (s : State)
    (h : s.isLoading edge ≠ some true) :
    (loadMoreAsync edge dev p (.error e) s).state.isLoading edge = some false ∧
    (loadMoreAsync edge dev p (.error e) s).state.isDisplayingError edge = true ∧
    (p.onLoadError = true →
      errorReports (loadMoreAsync edge dev p (.error e) s).trace =
        [match edge with
          | .bottom => Call.onLoadError e "bottom"
          | .top => Call.onLoadError e "top"]) ∧
    (p.onLoadError = false →
      errorReports (loadMoreAsync edge dev p (.error e) s).trace = []) := by
  cases edge
  · have ht : truthy s.isLoadingTop = false := by
      rcases hl : s.isLoadingTop with _ | _ | _ <;> simp_all [State.isLoading, truthy]
    cases hc : p.canLoadMoreTop.truthy <;> cases ho : p.onLoadError <;>
      simp [loadMoreAsync, _loadMoreAsyncTop, _loadMoreAsyncTop_beforeAwait,
        _loadMoreAsyncTop_afterAwait, _offsetTopIndicator, State.isLoading,
        State.isDisplayingError, errorReports, calls, Call.isOnLoadError, ht, hc, ho]
  · have hb : truthy s.isLoadingBottom = false := by
      rcases hl : s.isLoadingBottom with _ | _ | _ <;> simp_all [State.isLoading, truthy]
    cases ho : p.onLoadError <;>
      simp [loadMoreAsync, _loadMoreAsyncBottom, _loadMoreAsyncBottom_beforeAwait,
        _loadMoreAsyncBottom_afterAwait, State.isLoading,
        State.isDisplayingError, errorReports, calls, Call.isOnLoadError, hb, ho]

/-- The instance of claim C3 for a top load started on the freshly constructed component,
with `onLoadError` supplied. -/
theorem loadMoreAsync_rejected_witness :
    (loadMoreAsync .top true { defaultProps with onLoadError := true } (.error "offline")
        (constructor "ios")).state.isLoading .top = some false ∧
    (loadMoreAsync .top true { defaultProps with onLoadError := true } (.error "offline")
        (constructor "ios")).state.isDisplayingError .top = true ∧
    ((true = true) →
      errorReports (loadMoreAsync .top true { defaultProps with onLoadError := true }
        (.error "offline") (constructor "ios")).trace = [Call.onLoadError "offline" "top"]) ∧
    ((true = false) →
      errorReports (loadMoreAsync .top true { defaultProps with onLoadError := true }
        (.error "offline") (constructor "ios")).trace = []) :=
  loadMoreAsync_rejected .top true { defaultProps with onLoadError := true } "offline"
    (constructor "ios") (by decide)

/-- Claim C4.  For each edge and every state in which that edge is not loading (a state
displaying an error included): when the loader resolves, the completed
`_loadMoreAsync<Edge>` leaves the edge's `isLoading` false and its `isDisplayingError`
false, and `onLoadError` has not been called. -/
theorem loadMoreAsync_resolved (edge : Edge) (dev : Bool) (p : Props) (s : State)
    (h : s.isLoading edge ≠ some true) :
    (loadMoreAsync edge dev p (.ok ()) s).state.isLoading edge = some false ∧
    (loadMoreAsync edge dev p (.ok ()) s).state.isDisplayingError edge = false ∧
    errorReports (loadMoreAsync edge dev p (.ok ()) s).trace = [] := by
  cases edge
  · have ht : truthy s.isLoadingTop = false := by
      rcases hl : s.isLoadingTop with _ | _ | _ <;> simp_all [State.isLoading, truthy]
    cases hc : p.canLoadMoreTop.truthy <;>
      simp [loadMoreAsync, _loadMoreAsyncTop, _loadMoreAsyncTop_beforeAwait,
        _loadMoreAsyncTop_afterAwait, _offsetTopIndicator, State.isLoading,
        State.isDisplayingError, errorReports, calls, Call.isOnLoadError, ht, hc]
  · have hb : truthy s.isLoadingBottom = false := by
      rcases hl : s.isLoadingBottom with _ | _ | _ <;> simp_all [State.isLoading, truthy]
    simp [loadMoreAsync, _loadMoreAsyncBottom, _loadMoreAsyncBottom_beforeAwait,
      _loadMoreAsyncBottom_afterAwait, State.isLoading,
      State.isDisplayingError, errorReports, calls, Call.isOnLoadError, hb]

/-- The instance of claim C4 for a retry: a bottom load started while the bottom edge
displays an error. -/
theorem loadMoreAsync_resolved_witness :
    (loadMoreAsync .bottom false { defaultProps with onLoadError := true } (.ok ())
        { constructor "android" with
          isLoadingBottom := some false, isDisplayingErrorBottom := true }).state.isLoading
        .bottom = some false ∧
    (loadMoreAsync .bottom false { defaultProps with onLoadError := true } (.ok ())
        { constructor "android" with
          isLoadingBottom := some false, isDisplayingErrorBottom := true }).state.isDisplayingError
        .bottom = false ∧
    errorReports (loadMoreAsync .bottom false { defaultProps with onLoadError := true } (.ok ())
        { constructor "android" with
          isLoadingBottom := some false, isDisplayingErrorBottom := true }).trace = [] :=
  loadMoreAsync_resolved .bottom false { defaultProps with onLoadError := true }
    { constructor "android" with isLoadingBottom := some false, isDisplayingErrorBottom := true }
    (by decide)

/-- Claim C5.  For each edge, every state in which that edge is not loading and every error
the loader rejects with, with or without `onLoadError`: `_loadMoreAsync<Edge>` completes
normally, so the handler that `_handleScroll` gives to `.catch` has nothing to log. -/
theorem loadMoreAsync_swallows (edge : Edge) (dev : Bool) (p : Props) (e : Err) (s : State)
    (h : s.isLoading edge ≠ some true) :
    (loadMoreAsync edge dev p (.error e) s).result = .ok () ∧
    ∀ s1 : State, unexpected s1 (some (loadMoreAsync edge dev p (.error e) s)) = [] := by
  have hr : (loadMoreAsync edge dev p (.error e) s).result = .ok () := by
    cases edge
    · have ht : truthy s.isLoadingTop = false := by
        rcases hl : s.isLoadingTop with _ | _ | _ <;> simp_all [State.isLoading, truthy]
      simp [loadMoreAsync, _loadMoreAsyncTop, _loadMoreAsyncTop_beforeAwait, ht]
    · have hb : truthy s.isLoadingBottom = false := by
        rcases hl : s.isLoadingBottom with _ | _ | _ <;> simp_all [State.isLoading, truthy]
      simp [loadMoreAsync, _loadMoreAsyncBottom, _loadMoreAsyncBottom_beforeAwait, hb]
  refine ⟨hr, fun s1 => ?_⟩
  rcases hrun : loadMoreAsync edge dev p (.error e) s with ⟨a, r, st, tr⟩
  rw [hrun] at hr
  simp only at hr
  subst hr
  rfl

/-- The instance of claim C5 for a bottom load on the freshly constructed component whose
loader rejects, without `onLoadError`. -/
theorem loadMoreAsync_swallows_witness :
    (loadMoreAsync .bottom true defaultProps (.error "offline") (constructor "ios")).result =
      .ok () ∧
    ∀ s1 : State,
      unexpected s1
        (some (loadMoreAsync .bottom true defaultProps (.error "offline") (constructor "ios"))) =
        [] :=
  loadMoreAsync_swallows .bottom true defaultProps "offline" (constructor "ios") (by decide)

/-- Claim C6.  For each edge and every state in which that edge's `isLoading` is true, a call
of `_loadMoreAsync<Edge>` in a debug build is rejected with an error, and nothing else
happens: no call is made (no loader, no `onLoadError`, no `scrollTo`) and the state is
unchanged. -/
theorem loadMoreAsync_misuse (edge : Edge) (p : Props) (settled : Except Err Unit) (s : State)
    (h : s.isLoading edge = some true) :
    (loadMoreAsync edge true p settled s).result =
      .error (match edge with
        | .bottom => "_loadMoreAsyncBottom called while isLoadingBottom is true"
        | .top => "_loadMoreAsyncTop called while isLoadingTop is true") ∧
    (loadMoreAsync edge true p settled s).trace = [] ∧
    (loadMoreAsync edge true p settled s).state = s := by
  cases edge
  · have ht : truthy s.isLoadingTop = true := by
      simp_all [State.isLoading, truthy]
    simp [loadMoreAsync, _loadMoreAsyncTop, _loadMoreAsyncTop_beforeAwait, ht]
  · have hb : truthy s.isLoadingBottom = true := by
      simp_all [State.isLoading, truthy]
    simp [loadMoreAsync, _loadMoreAsyncBottom, _loadMoreAsyncBottom_beforeAwait, hb]

/-- The instance of claim C6 for a top load called again while the first one is awaiting
its loader. -/
theorem loadMoreAsync_misuse_witness :
    (loadMoreAsync .top true defaultProps (.ok ())
        (_loadMoreAsyncTop_beforeAwait true (constructor "ios")).state).result =
      .error "_loadMoreAsyncTop called while isLoadingTop is true" ∧
    (loadMoreAsync .top true defaultProps (.ok ())
        (_loadMoreAsyncTop_beforeAwait true (constructor "ios")).state).trace = [] ∧
    (loadMoreAsync .top true defaultProps (.ok ())
        (_loadMoreAsyncTop_beforeAwait true (constructor "ios")).state).state =
      (_loadMoreAsyncTop_beforeAwait true (constructor "ios")).state :=
  loadMoreAsync_misuse .top defaultProps (.ok ())
    (_loadMoreAsyncTop_beforeAwait true (constructor "ios")).state (by decide)

/-- The part of `_loadMoreAsyncBottom` before the `await` leaves the top edge's fields and
`canShowTopIndicator` alone. -/
theorem loadMoreAsyncBottom_beforeAwait_frame (dev : Bool) (s : State) :
    (_loadMoreAsyncBottom_beforeAwait dev s).state.isLoadingTop = s.isLoadingTop ∧
    (_loadMoreAsyncBottom_beforeAwait dev s).state.isDisplayingErrorTop =
      s.isDisplayingErrorTop ∧
    (_loadMoreAsyncBottom_beforeAwait dev s).state.canShowTopIndicator =
      s.canShowTopIndicator := by
  unfold _loadMoreAsyncBottom_beforeAwait
  split <;> simp

/-- The part of `_loadMoreAsyncTop` before the `await` leaves the bottom edge's fields and
`canShowTopIndicator` alone. -/
theorem loadMoreAsyncTop_beforeAwait_frame (dev : Bool) (s : State) :
    (_loadMoreAsyncTop_beforeAwait dev s).state.isLoadingBottom = s.isLoadingBottom ∧
    (_loadMoreAsyncTop_beforeAwait dev s).state.isDisplayingErrorBottom =
      s.isDisplayingErrorBottom ∧
    (_loadMoreAsyncTop_beforeAwait dev s).state.canShowTopIndicator =
      s.canShowTopIndicator := by
  unfold _loadMoreAsyncTop_beforeAwait
  split <;> simp

/-- The calls made by `_loadMoreAsyncBottom` before its `await` are calls of the bottom
loader. -/
theorem loadMoreAsyncBottom_beforeAwait_calls (dev : Bool) (s : State) (c : Call)
    (h : c ∈ calls (_loadMoreAsyncBottom_beforeAwait dev s).trace) :
    c = .onLoadMoreAsyncBottom := by
  unfold _loadMoreAsyncBottom_beforeAwait at h
  split at h <;> simp_all [calls]

/-- The calls made by `_loadMoreAsyncTop` before its `await` are calls of the top loader. -/
theorem loadMoreAsyncTop_beforeAwait_calls (dev : Bool) (s : State) (c : Call)
    (h : c ∈ calls (_loadMoreAsyncTop_beforeAwait dev s).trace) :
    c = .onLoadMoreAsyncTop := by
  unfold _loadMoreAsyncTop_beforeAwait at h
  split at h <;> simp_all [calls]

/-- The handler given to `.catch` only calls `console.error`. -/
theorem unexpected_calls (s : State) (r : Option Run) (c : Call)
    (h : c ∈ calls (unexpected s r)) : ∃ message e, c = .consoleError message e := by
  unfold unexpected at h
  split at h <;> simp_all [calls]

/-- When the bottom trigger is false, `_handleScroll` does not call the bottom loader and
leaves the bottom edge's fields as they are. -/
theorem handleScroll_bottom_idle (dev : Bool) (p : Props) (event : Event) (s : State)
    (h : _shouldLoadMoreBottom p s event = false) :
    Call.onLoadMoreAsyncBottom ∉ calls (_handleScroll dev p event s).trace ∧
    (_handleScroll dev p event s).state.isLoadingBottom = s.isLoadingBottom ∧
    (_handleScroll dev p event s).state.isDisplayingErrorBottom = s.isDisplayingErrorBottom := by
  have hf := loadMoreAsyncTop_beforeAwait_frame dev s
  have hcalls := loadMoreAsyncTop_beforeAwait_calls dev s .onLoadMoreAsyncBottom
  have hu := unexpected_calls
    (match (if _shouldLoadMoreTop p s event = true
        then some (_loadMoreAsyncTop_beforeAwait dev s) else none) with
      | some r => r.state
      | none => s)
    (if _shouldLoadMoreTop p s event = true
      then some (_loadMoreAsyncTop_beforeAwait dev s) else none) .onLoadMoreAsyncBottom
  cases ht : _shouldLoadMoreTop p s event <;> cases ho : p.onScroll <;>
    simp [_handleScroll, h, ht, ho, calls, unexpected, hf] at hcalls hu ⊢
  all_goals exact ⟨hcalls, hu⟩

/-- When the top trigger is false in every state with the top fields of `s`,
`_handleScroll` does not call the top loader and leaves the top edge's fields as they
are. -/
theorem handleScroll_top_idle (dev : Bool) (p : Props) (event : Event) (s : State)
    (h : ∀ s1 : State, s1.isLoadingTop = s.isLoadingTop →
      s1.isDisplayingErrorTop = s.isDisplayingErrorTop → _shouldLoadMoreTop p s1 event = false) :
    Call.onLoadMoreAsyncTop ∉ calls (_handleScroll dev p event s).trace ∧
    (_handleScroll dev p event s).state.isLoadingTop = s.isLoadingTop ∧
    (_handleScroll dev p event s).state.isDisplayingErrorTop = s.isDisplayingErrorTop := by
  have hf := loadMoreAsyncBottom_beforeAwait_frame dev s
  have h0 := h s rfl rfl
  have h1 := h (_loadMoreAsyncBottom_beforeAwait dev s).state hf.1 hf.2.1
  have hcalls := loadMoreAsyncBottom_beforeAwait_calls dev s .onLoadMoreAsyncTop
  have hu := unexpected_calls
    (match (if _shouldLoadMoreBottom p s event = true
        then some (_loadMoreAsyncBottom_beforeAwait dev s) else none) with
      | some r => r.state
      | none => s)
    (if _shouldLoadMoreBottom p s event = true
      then some (_loadMoreAsyncBottom_beforeAwait dev s) else none) .onLoadMoreAsyncTop
  cases hb : _shouldLoadMoreBottom p s event <;> cases ho : p.onScroll <;>
    simp [_handleScroll, h0, h1, hb, ho, calls, unexpected, hf] at hcalls hu ⊢
  all_goals exact ⟨hcalls, hu⟩

/-- Claim C8.  For each edge, every scroll event and all props: when that edge's `isLoading`
is true, `_shouldLoadMore<Edge>` is false and `_handleScroll` does not call that edge's
loader. -/
theorem no_duplicate_trigger (edge : Edge) (dev : Bool) (p : Props) (event : Event) (s : State)
    (h : s.isLoading edge = some true) :
    shouldLoadMore edge p s event = false ∧
    edge.loader ∉ calls (_handleScroll dev p event s).trace := by
  cases edge
  · have hs : ∀ s1 : State, s1.isLoadingTop = s.isLoadingTop →
        s1.isDisplayingErrorTop = s.isDisplayingErrorTop →
        _shouldLoadMoreTop p s1 event = false := by
      intro s1 h1 _
      have h2 : s1.isLoadingTop = some true := h1.trans h
      simp [_shouldLoadMoreTop, truthy, h2]
    exact ⟨hs s rfl rfl, (handleScroll_top_idle dev p event s hs).1⟩
  · have hs : _shouldLoadMoreBottom p s event = false := by
      have h2 : s.isLoadingBottom = some true := h
      simp [_shouldLoadMoreBottom, truthy, h2]
    exact ⟨hs, (handleScroll_bottom_idle dev p event s hs).1⟩

/-- The instance of claim C8 for a scroll to the end of the content while a bottom load is
awaiting its loader, with `canLoadMoreBottom` true. -/
theorem no_duplicate_trigger_witness :
    shouldLoadMore .bottom { defaultProps with canLoadMoreBottom := .static true }
        (_loadMoreAsyncBottom_beforeAwait true (constructor "ios")).state
        ⟨⟨⟨320, 1000⟩, ⟨0, 0, 0, 0⟩, ⟨0, 500⟩, ⟨320, 500⟩⟩⟩ = false ∧
    Edge.bottom.loader ∉
      calls (_handleScroll true { defaultProps with canLoadMoreBottom := .static true }
        ⟨⟨⟨320, 1000⟩, ⟨0, 0, 0, 0⟩, ⟨0, 500⟩, ⟨320, 500⟩⟩⟩
        (_loadMoreAsyncBottom_beforeAwait true (constructor "ios")).state).trace :=
  no_duplicate_trigger .bottom true { defaultProps with canLoadMoreBottom := .static true }
    ⟨⟨⟨320, 1000⟩, ⟨0, 0, 0, 0⟩, ⟨0, 500⟩, ⟨320, 500⟩⟩⟩
    (_loadMoreAsyncBottom_beforeAwait true (constructor "ios")).state (by decide)

/-- Claim C9.  For each edge, every scroll event and all props: when that edge's
`isDisplayingError` is true, `_shouldLoadMore<Edge>` is false, whatever the capability and
the distance; `_handleScroll` does not call that edge's loader and leaves that edge's
`isDisplayingError` true. -/
theorem no_silent_retry (edge : Edge) (dev : Bool) (p : Props) (event : Event) (s : State)
    (h : s.isDisplayingError edge = true) :
    shouldLoadMore edge p s event = false ∧
    edge.loader ∉ calls (_handleScroll dev p event s).trace ∧
    (_handleScroll dev p event s).state.isDisplayingError edge = true := by
  cases edge
  · have hs : ∀ s1 : State, s1.isLoadingTop = s.isLoadingTop →
        s1.isDisplayingErrorTop = s.isDisplayingErrorTop →
        _shouldLoadMoreTop p s1 event = false := by
      intro s1 _ h1
      have h2 : s1.isDisplayingErrorTop = true := h1.trans h
      simp [_shouldLoadMoreTop, h2]
    have hi := handleScroll_top_idle dev p event s hs
    exact ⟨hs s rfl rfl, hi.1, hi.2.2.trans h⟩
  · have hs : _shouldLoadMoreBottom p s event = false := by
      have h2 : s.isDisplayingErrorBottom = true := h
      simp [_shouldLoadMoreBottom, h2]
    have hi := handleScroll_bottom_idle dev p event s hs
    exact ⟨hs, hi.1, hi.2.2.trans h⟩

/-- The instance of claim C9 for a scroll to the very top while the top edge displays the
error of a failed load, with `canLoadMoreTop` true. -/
theorem no_silent_retry_witness :
    shouldLoadMore .top { defaultProps with canLoadMoreTop := .static true }
        (_loadMoreAsyncTop true defaultProps (.error "offline") (constructor "ios")).state
        ⟨⟨⟨320, 1000⟩, ⟨0, 0, 0, 0⟩, ⟨0, 0⟩, ⟨320, 500⟩⟩⟩ = false ∧
    Edge.top.loader ∉
      calls (_handleScroll true { defaultProps with canLoadMoreTop := .static true }
        ⟨⟨⟨320, 1000⟩, ⟨0, 0, 0, 0⟩, ⟨0, 0⟩, ⟨320, 500⟩⟩⟩
        (_loadMoreAsyncTop true defaultProps (.error "offline") (constructor "ios")).state).trace ∧
    (_handleScroll true { defaultProps with canLoadMoreTop := .static true }
        ⟨⟨⟨320, 1000⟩, ⟨0, 0, 0, 0⟩, ⟨0, 0⟩, ⟨320, 500⟩⟩⟩
        (_loadMoreAsyncTop true defaultProps (.error "offline")
          (constructor "ios")).state).state.isDisplayingError .top = true :=
  no_silent_retry .top true { defaultProps with canLoadMoreTop := .static true }
    ⟨⟨⟨320, 1000⟩, ⟨0, 0, 0, 0⟩, ⟨0, 0⟩, ⟨320, 500⟩⟩⟩
    (_loadMoreAsyncTop true defaultProps (.error "offline") (constructor "ios")).state
    (by decide)

/-- A capability that evaluates to true is a truthy prop value. -/
theorem Capability.truthy_of_evaluate (c : Capability) (h : c.evaluate = true) :
    c.truthy = true := by
  cases c <;> simp_all [Capability.evaluate, Capability.truthy]

/-- Claim C10.  A top load started while the top edge is not loading, whose loader resolves
or rejects, with the top capability true when it completes, makes exactly one `scrollTo`
call, with `x = 0`, `y = topLoadingIndicatorHeight` and `animated = false`, in a state where
`isLoadingTop` is already false again; a bottom load makes no `scrollTo` call. -/
theorem loadMoreAsyncTop_scrolls_once (dev : Bool) (p : Props) (settled : Except Err Unit)
    (s : State) (h : s.isLoadingTop ≠ some true) (hc : p.canLoadMoreTop.evaluate = true) :
    (∃ st : State,
      scrollCalls (_loadMoreAsyncTop dev p settled s).trace =
        [⟨.scrollTo 0 p.topLoadingIndicatorHeight false, st⟩] ∧
      st.isLoadingTop = some false) ∧
    ∀ (dev1 : Bool) (p1 : Props) (settled1 : Except Err Unit) (s1 : State),
      scrollCalls (_loadMoreAsyncBottom dev1 p1 settled1 s1).trace = [] := by
  have ht : truthy s.isLoadingTop = false := by
    rcases hl : s.isLoadingTop with _ | _ | _ <;> simp_all [truthy]
  have hy := Capability.truthy_of_evaluate _ hc
  constructor
  · rcases settled with e | u
    · cases ho : p.onLoadError <;>
        simp [_loadMoreAsyncTop, _loadMoreAsyncTop_beforeAwait, _loadMoreAsyncTop_afterAwait,
          _offsetTopIndicator, scrollCalls, Call.isScrollTo, ht, hy, ho]
    · simp [_loadMoreAsyncTop, _loadMoreAsyncTop_beforeAwait, _loadMoreAsyncTop_afterAwait,
        _offsetTopIndicator, scrollCalls, Call.isScrollTo, ht, hy]
  · intro dev1 p1 settled1 s1
    rcases settled1 with e | u <;> cases ho : p1.onLoadError <;>
      cases hg : (truthy s1.isLoadingBottom && dev1) <;>
      simp [_loadMoreAsyncBottom, _loadMoreAsyncBottom_beforeAwait,
        _loadMoreAsyncBottom_afterAwait, scrollCalls, Call.isScrollTo, ho, hg]

/-- The instance of claim C10 for a top load on the freshly constructed component whose
loader rejects, with a predicate for `canLoadMoreTop` and a reserved height of 100. -/
theorem loadMoreAsyncTop_scrolls_once_witness :
    (∃ st : State,
      scrollCalls (_loadMoreAsyncTop true
          { defaultProps with canLoadMoreTop := .predicate fun _ => true }
          (.error "offline") (constructor "android")).trace =
        [⟨.scrollTo 0 100 false, st⟩] ∧
      st.isLoadingTop = some false) ∧
    ∀ (dev1 : Bool) (p1 : Props) (settled1 : Except Err Unit) (s1 : State),
      scrollCalls (_loadMoreAsyncBottom dev1 p1 settled1 s1).trace = [] :=
  loadMoreAsyncTop_scrolls_once true { defaultProps with canLoadMoreTop := .predicate fun _ => true }
    (.error "offline") (constructor "android") (by decide) rfl

/-- The freshly mounted component satisfies the invariant. -/
theorem Machine.inv_initial (platformOS : String) : (Machine.initial platformOS).Inv := by
  simp [Machine.Inv, Machine.initial, constructor, truthy]

/-- A call of `_loadMoreAsync<Edge>` for an edge that is not loading preserves the
invariant. -/
theorem Machine.inv_start (dev : Bool) (h : Handler) (m : Machine) (hi : m.Inv)
    (hl : truthy (m.state.isLoading h.edge) = false) : (Machine.start dev h m).Inv := by
  obtain ⟨h1, h2, h3, h4, h5⟩ := hi
  cases h
  · have hl1 : truthy m.state.isLoadingTop = false := hl
    simp_all [Machine.Inv, Machine.start, Machine.record, Handler.call, Handler.edge,
      _loadMoreAsyncTop_beforeAwait, truthy]
  · have hl1 : truthy m.state.isLoadingBottom = false := hl
    simp_all [Machine.Inv, Machine.start, Machine.record, Handler.call, Handler.edge,
      _loadMoreAsyncBottom_beforeAwait, truthy]

/-- The scroll step starts the bottom load when the bottom trigger holds, then the top load
when the top trigger holds. -/
theorem Machine.scroll_eq (dev : Bool) (m : Machine) (p : Props) (event : Event) :
    Machine.record .top (_handleScroll dev p event m.state).top
      (Machine.record .bottom (_handleScroll dev p event m.state).bottom
        { m with state := (_handleScroll dev p event m.state).state }) =
    (fun m1 : Machine =>
      if _shouldLoadMoreTop p m1.state event then Machine.start dev ._loadMoreAsyncTop m1 else m1)
      (if _shouldLoadMoreBottom p m.state event
        then Machine.start dev ._loadMoreAsyncBottom m else m) := by
  cases hB : _shouldLoadMoreBottom p m.state event
  · cases hT : _shouldLoadMoreTop p m.state event <;>
      simp [_handleScroll, hB, hT, Machine.start, Machine.record, Handler.call, Handler.edge]
  · cases hT : _shouldLoadMoreTop p (_loadMoreAsyncBottom_beforeAwait dev m.state).state event <;>
      simp [_handleScroll, hB, hT, Machine.start, Machine.record, Handler.call, Handler.edge]

/-- A trigger that holds finds its edge not loading. -/
theorem shouldLoadMore_not_loading (h : Handler) (p : Props) (s : State) (event : Event)
    (ht : shouldLoadMore h.edge p s event = true) : truthy (s.isLoading h.edge) = false := by
  cases h
  · have h1 : _shouldLoadMoreTop p s event = true := ht
    cases hl : truthy s.isLoadingTop
    · exact hl
    · simp [_shouldLoadMoreTop, hl] at h1
  · have h1 : _shouldLoadMoreBottom p s event = true := ht
    cases hl : truthy s.isLoadingBottom
    · exact hl
    · simp [_shouldLoadMoreBottom, hl] at h1

/-- A scroll event preserves the invariant. -/
theorem Machine.inv_scroll (dev : Bool) (m : Machine) (p : Props) (event : Event)
    (h : m.Inv) :
    (Machine.record .top (_handleScroll dev p event m.state).top
      (Machine.record .bottom (_handleScroll dev p event m.state).bottom
        { m with state := (_handleScroll dev p event m.state).state })).Inv := by
  rw [Machine.scroll_eq]
  have h1 : (if _shouldLoadMoreBottom p m.state event
      then Machine.start dev ._loadMoreAsyncBottom m else m).Inv := by
    split
    · next hb =>
      exact Machine.inv_start dev ._loadMoreAsyncBottom m h
        (shouldLoadMore_not_loading ._loadMoreAsyncBottom p m.state event hb)
    · exact h
  generalize (if _shouldLoadMoreBottom p m.state event
      then Machine.start dev ._loadMoreAsyncBottom m else m) = m1 at h1
  show (if _shouldLoadMoreTop p m1.state event
      then Machine.start dev ._loadMoreAsyncTop m1 else m1).Inv
  split
  · next ht =>
    exact Machine.inv_start dev ._loadMoreAsyncTop m1 h1
      (shouldLoadMore_not_loading ._loadMoreAsyncTop p m1.state event ht)
  · exact h1

/-- The error indicator of an edge is rendered only while that edge displays an error, and
its retry callback loads that same edge. -/
theorem render_error_indicator (p : Props) (s : State) (edge : Edge) (h : Handler)
    (key : String) (hr : (render p s).indicator edge = some (.error h key)) :
    h.edge = edge ∧ s.isDisplayingError edge = true := by
  cases edge
  · cases he : s.isDisplayingErrorTop <;>
      cases hc : (p.canLoadMoreTop.truthy && s.canShowTopIndicator) <;>
      simp [render, Rendered.indicator, State.isDisplayingError, he, hc] at hr ⊢
    all_goals
      obtain ⟨rfl, _⟩ := hr
      rfl
  · cases he : s.isDisplayingErrorBottom <;> cases hc : p.canLoadMoreBottom.truthy <;>
      simp [render, Rendered.indicator, State.isDisplayingError, he, hc] at hr ⊢
    all_goals
      obtain ⟨rfl, _⟩ := hr
      rfl

/-- Under the invariant an edge that displays an error is not loading. -/
theorem Machine.Inv.not_loading_of_error (m : Machine) (hi : m.Inv) (edge : Edge)
    (he : m.state.isDisplayingError edge = true) : truthy (m.state.isLoading edge) = false := by
  obtain ⟨_, _, h3, h4, _⟩ := hi
  cases edge
  · have he1 : m.state.isDisplayingErrorTop = true := he
    show truthy m.state.isLoadingTop = false
    simpa [he1] using h4
  · have he1 : m.state.isDisplayingErrorBottom = true := he
    show truthy m.state.isLoadingBottom = false
    simpa [he1] using h3

/-- Every event preserves the invariant. -/
theorem Machine.inv_step (dev : Bool) (m m1 : Machine) (a : Action) (hi : m.Inv)
    (hs : Machine.step dev m a = some m1) : m1.Inv := by
  cases a with
  | scroll p event =>
    simp only [Machine.step, Option.some.injEq] at hs
    subst hs
    exact Machine.inv_scroll dev m p event hi
  | retry edge p =>
    simp only [Machine.step] at hs
    split at hs
    · next h key hr =>
      simp only [Option.some.injEq] at hs
      subst hs
      obtain ⟨he, hd⟩ := render_error_indicator p m.state edge h key hr
      subst he
      exact Machine.inv_start dev h m hi (Machine.Inv.not_loading_of_error m hi _ hd)
    · cases hs
  | settle edge p settled =>
    obtain ⟨h1, h2, h3, h4, h5⟩ := hi
    cases edge
    · simp only [Machine.step] at hs
      split at hs
      · cases hs
      · next hn =>
        simp only [Option.some.injEq] at hs
        subst hs
        cases hl : truthy m.state.isLoadingTop
        · simp [hl] at h2
          exact absurd h2 hn
        · rcases settled with e | u <;> cases hc : p.canLoadMoreTop.truthy <;>
            simp_all [Machine.Inv, _loadMoreAsyncTop_afterAwait, _offsetTopIndicator, truthy]
    · simp only [Machine.step] at hs
      split at hs
      · cases hs
      · next hn =>
        simp only [Option.some.injEq] at hs
        subst hs
        cases hl : truthy m.state.isLoadingBottom
        · simp [hl] at h1
          exact absurd h1 hn
        · rcases settled with e | u <;>
            simp_all [Machine.Inv, _loadMoreAsyncBottom_afterAwait, truthy]
  | offset p =>
    simp only [Machine.step, Option.some.injEq] at hs
    subst hs
    obtain ⟨h1, h2, h3, h4, h5⟩ := hi
    cases hc : p.canLoadMoreTop.truthy <;>
      simp_all [Machine.Inv, _offsetTopIndicator]

/-- Every sequence of events preserves the invariant. -/
theorem Machine.inv_run (dev : Bool) (actions : List Action) (m m1 : Machine) (hi : m.Inv)
    (hr : Machine.run dev m actions = some m1) : m1.Inv := by
  induction actions generalizing m with
  | nil =>
    simp only [Machine.run, Option.some.injEq] at hr
    subst hr
    exact hi
  | cons a rest ih =>
    simp only [Machine.run] at hr
    split at hr
    · next m2 hs => exact ih m2 (Machine.inv_step dev m m2 a hi hs) hr
    · cases hr

/-- Claim C7.  From the constructed state, after any sequence of scroll events, retries
offered by a rendered error indicator, settled loaders and `_offsetTopIndicator` calls,
with any props at each event and with `__DEV__` true or false: each edge has at most one
load in flight, no edge is both loading and displaying an error, and `_loadMoreAsync<Edge>`
has never been called for an edge whose `isLoading` was true. -/
theorem inFlight_guard (dev : Bool) (platformOS : String) (actions : List Action) (m : Machine)
    (h : Machine.run dev (Machine.initial platformOS) actions = some m) :
    m.inFlightBottom ≤ 1 ∧ m.inFlightTop ≤ 1 ∧
    ¬(m.state.isLoadingBottom = some true ∧ m.state.isDisplayingErrorBottom = true) ∧
    ¬(m.state.isLoadingTop = some true ∧ m.state.isDisplayingErrorTop = true) ∧
    m.reentrant = 0 := by
  obtain ⟨h1, h2, h3, h4, h5⟩ :=
    Machine.inv_run dev actions _ m (Machine.inv_initial platformOS) h
  refine ⟨?_, ?_, ?_, ?_, h5⟩
  · rw [h1]; split <;> simp
  · rw [h2]; split <;> simp
  · rintro ⟨hl, he⟩
    simp [hl, he, truthy] at h3
  · rintro ⟨hl, he⟩
    simp [hl, he, truthy] at h4

/-- The instance of claim C7 for `shortContentRun` in a production build on android, which
ends with the retried bottom load in flight. -/
theorem inFlight_guard_witness :
    Machine.run false (Machine.initial "android") shortContentRun =
      some ⟨⟨some true, some false, false, false, true⟩, 1, 0, 0⟩ ∧
    ((1 : Nat) ≤ 1 ∧ (0 : Nat) ≤ 1 ∧
      ¬((some true : Option Bool) = some true ∧ false = true) ∧
      ¬(some false = some true ∧ false = true) ∧
      (0 : Nat) = 0) :=
  ⟨by decide,
    inFlight_guard false "android" shortContentRun
      ⟨⟨some true, some false, false, false, true⟩, 1, 0, 0⟩ (by decide)⟩

/-- Claim C11, evaluated on the code: with `canLoadMoreTop` a predicate that returns false,
the capability evaluates to false and the top trigger is false, yet `_offsetTopIndicator`
calls `scrollTo(0, 100, false)`, because line 137 tests the prop value itself and a function
is truthy. -/
theorem offsetTopIndicator_predicate_false :
    (Capability.predicate fun _ => false).evaluate = false ∧
    _shouldLoadMoreTop { defaultProps with canLoadMoreTop := .predicate fun _ => false }
      (constructor "ios") (scenarioEvent 0) = false ∧
    calls (_offsetTopIndicator { defaultProps with canLoadMoreTop := .predicate fun _ => false }
      (constructor "ios")).2 = [.scrollTo 0 100 false] := by
  decide

/-- What `_offsetTopIndicator` does for every capability: it scrolls exactly when the prop
value is truthy, which for a static value is the value and for a predicate is always. -/
theorem offsetTopIndicator_scrolls_iff (p : Props) (s : State) :
    (_offsetTopIndicator p s).2 ≠ [] ↔ p.canLoadMoreTop.truthy = true := by
  cases h : p.canLoadMoreTop.truthy <;> simp [_offsetTopIndicator, h]

/-- Claim C12.  `_distanceFromEnd` is `contentSize.height + contentInset.bottom -
contentOffset.y - layoutMeasurement.height` when vertical and `contentSize.width +
contentInset.right - contentOffset.x - layoutMeasurement.width` when horizontal; the
horizontal distance on an event is the vertical distance on the event with its axes
exchanged; and the distance can be negative. -/
theorem distanceFromEnd_eq :
    (∀ (p : Props) (event : Event), p.horizontal = false →
      _distanceFromEnd p event =
        event.nativeEvent.contentSize.height + event.nativeEvent.contentInset.bottom -
          event.nativeEvent.contentOffset.y - event.nativeEvent.layoutMeasurement.height) ∧
    (∀ (p : Props) (event : Event), p.horizontal = true →
      _distanceFromEnd p event =
        event.nativeEvent.contentSize.width + event.nativeEvent.contentInset.right -
          event.nativeEvent.contentOffset.x - event.nativeEvent.layoutMeasurement.width) ∧
    (∀ (p : Props) (event : Event),
      _distanceFromEnd { p with horizontal := true } event =
        _distanceFromEnd { p with horizontal := false } event.exchangeAxes) ∧
    (∃ (p : Props) (event : Event), _distanceFromEnd p event < 0) := by
  refine ⟨?_, ?_, ?_, ?_⟩
  · intro p event h
    simp [_distanceFromEnd, h]
  · intro p event h
    simp [_distanceFromEnd, h]
  · intro p event
    simp [_distanceFromEnd, Event.exchangeAxes]
  · exact ⟨defaultProps, shortContentEvent, by decide⟩

/-- The instance of claim C12 for the vertical scenario event at offset 360 and for over-scroll
past the end (offset 600): distances 140 and -100. -/
theorem distanceFromEnd_eq_witness :
    _distanceFromEnd defaultProps (scenarioEvent 360) = 1000 + 0 - 360 - 500 ∧
    _distanceFromEnd { defaultProps with horizontal := true } (scenarioEvent 600).exchangeAxes =
      1000 + 0 - 600 - 500 :=
  ⟨distanceFromEnd_eq.1 defaultProps (scenarioEvent 360) rfl,
    distanceFromEnd_eq.2.1 { defaultProps with horizontal := true }
      (scenarioEvent 600).exchangeAxes rfl⟩

/-- Claim C13.  `_distanceFromTop` is `contentOffset.y - contentInset.top` when vertical and
`contentOffset.x - contentInset.left` when horizontal, and it does not depend on the content
size or the viewport size. -/
theorem distanceFromTop_eq :
    (∀ (p : Props) (event : Event), p.horizontal = false →
      _distanceFromTop p event =
        event.nativeEvent.contentOffset.y - event.nativeEvent.contentInset.top) ∧
    (∀ (p : Props) (event : Event), p.horizontal = true →
      _distanceFromTop p event =
        event.nativeEvent.contentOffset.x - event.nativeEvent.contentInset.left) ∧
    (∀ (p : Props) (event : Event) (contentSize layoutMeasurement : Size),
      _distanceFromTop p
        { nativeEvent :=
          { event.nativeEvent with
            contentSize := contentSize, layoutMeasurement := layoutMeasurement } } =
        _distanceFromTop p event) := by
  refine ⟨?_, ?_, ?_⟩
  · intro p event h
    simp [_distanceFromTop, h]
  · intro p event h
    simp [_distanceFromTop, h]
  · intro p event contentSize layoutMeasurement
    simp [_distanceFromTop]

/-- The instance of claim C13 for the vertical scenario event at offset 30 and for its
horizontal counterpart. -/
theorem distanceFromTop_eq_witness :
    _distanceFromTop defaultProps (scenarioEvent 30) = 30 - 0 ∧
    _distanceFromTop { defaultProps with horizontal := true } (scenarioEvent 30).exchangeAxes =
      30 - 0 :=
  ⟨distanceFromTop_eq.1 defaultProps (scenarioEvent 30) rfl,
    distanceFromTop_eq.2.1 { defaultProps with horizontal := true }
      (scenarioEvent 30).exchangeAxes rfl⟩

/-- Claim C14 as stated fails: when the top load is retried from the press handler of the
error indicator, which React dispatches batched, `this.state` at the moment the loader is
called is still the state the handler was entered in: `isDisplayingErrorTop` is true and
`isLoadingTop` is false, although the top edge was not loading when the load started. -/
theorem loader_call_state_stale :
    failedTopState.isLoading .top ≠ some true ∧
    (loaderCalls .top (loadMoreAsync .top true scenarioProps (.ok ()) failedTopState).trace).map
      (fun l =>
        ((l.thisState true failedTopState).isDisplayingError .top,
          (l.thisState true failedTopState).isLoading .top)) =
      [(true, some false)] := by
  decide

/-- Claim C14 as amended.  For each edge and every load started while that edge is not
loading (a state displaying an error included), whatever the loader's outcome: the loader
is called exactly once, before the `await`, without arguments, and after the `setState`
that clears the edge's `isDisplayingError` and sets its `isLoading`: with that update
applied the edge's `isDisplayingError` is false and its `isLoading` true.  This is what
`this.state` shows at the call when `setState` is applied at once, and what the component
state is once the handler has returned; inside a batched handler `this.state` at the call
is still the state the handler was entered in. -/
theorem loader_called_after_setState (edge : Edge) (dev : Bool) (p : Props)
    (settled : Except Err Unit) (s : State) (h : s.isLoading edge ≠ some true) :
    ∃ l : Logged,
      loaderCalls edge (loadMoreAsync edge dev p settled s).trace = [l] ∧
      loaderCalls edge (loadMoreAsyncBeforeAwait edge dev s).trace = [l] ∧
      l.call = edge.loader ∧
      l.stateAt.isDisplayingError edge = false ∧ l.stateAt.isLoading edge = some true ∧
      (l.thisState false s).isDisplayingError edge = false ∧
      (l.thisState false s).isLoading edge = some true ∧
      l.thisState true s = s ∧
      (loadMoreAsyncBeforeAwait edge dev s).state = l.stateAt := by
  cases edge
  · have ht : truthy s.isLoadingTop = false := by
      rcases hl : s.isLoadingTop with _ | _ | _ <;> simp_all [State.isLoading, truthy]
    refine ⟨⟨.onLoadMoreAsyncTop,
      { s with isDisplayingErrorTop := false, isLoadingTop := some true }⟩, ?_⟩
    rcases settled with e | u <;> cases ho : p.onLoadError <;>
      cases hc : p.canLoadMoreTop.truthy <;>
      simp [loadMoreAsync, loadMoreAsyncBeforeAwait, _loadMoreAsyncTop,
        _loadMoreAsyncTop_beforeAwait, _loadMoreAsyncTop_afterAwait, _offsetTopIndicator,
        loaderCalls, Edge.loader, Logged.thisState, State.isLoading, State.isDisplayingError,
        ht, ho, hc]
  · have hb : truthy s.isLoadingBottom = false := by
      rcases hl : s.isLoadingBottom with _ | _ | _ <;> simp_all [State.isLoading, truthy]
    refine ⟨⟨.onLoadMoreAsyncBottom,
      { s with isDisplayingErrorBottom := false, isLoadingBottom := some true }⟩, ?_⟩
    rcases settled with e | u <;> cases ho : p.onLoadError <;>
      simp [loadMoreAsync, loadMoreAsyncBeforeAwait, _loadMoreAsyncBottom,
        _loadMoreAsyncBottom_beforeAwait, _loadMoreAsyncBottom_afterAwait,
        loaderCalls, Edge.loader, Logged.thisState, State.isLoading, State.isDisplayingError,
        hb, ho]

/-- The instance of amended claim C14 for a retry of the top edge: a top load started in
`failedTopState`, where the top edge displays an error. -/
theorem loader_called_after_setState_witness :
    ∃ l : Logged,
      loaderCalls .top (loadMoreAsync .top true scenarioProps (.ok ()) failedTopState).trace =
        [l] ∧
      loaderCalls .top (loadMoreAsyncBeforeAwait .top true failedTopState).trace = [l] ∧
      l.call = Edge.top.loader ∧
      l.stateAt.isDisplayingError .top = false ∧ l.stateAt.isLoading .top = some true ∧
      (l.thisState false failedTopState).isDisplayingError .top = false ∧
      (l.thisState false failedTopState).isLoading .top = some true ∧
      l.thisState true failedTopState = failedTopState ∧
      (loadMoreAsyncBeforeAwait .top true failedTopState).state = l.stateAt :=
  loader_called_after_setState .top true scenarioProps (.ok ()) failedTopState (by decide)

/-- The part of `_loadMoreAsyncBottom` before the `await`, for an edge that is not loading. -/
theorem loadMoreAsyncBottom_beforeAwait_eq (dev : Bool) (s : State)
    (h : truthy s.isLoadingBottom = false) :
    _loadMoreAsyncBottom_beforeAwait dev s =
      ⟨false, .ok (), { s with isDisplayingErrorBottom := false, isLoadingBottom := some true },
        [⟨.onLoadMoreAsyncBottom,
          { s with isDisplayingErrorBottom := false, isLoadingBottom := some true }⟩]⟩ := by
  simp [_loadMoreAsyncBottom_beforeAwait, h]

/-- The part of `_loadMoreAsyncTop` before the `await`, for an edge that is not loading. -/
theorem loadMoreAsyncTop_beforeAwait_eq (dev : Bool) (s : State)
    (h : truthy s.isLoadingTop = false) :
    _loadMoreAsyncTop_beforeAwait dev s =
      ⟨false, .ok (), { s with isDisplayingErrorTop := false, isLoadingTop := some true },
        [⟨.onLoadMoreAsyncTop,
          { s with isDisplayingErrorTop := false, isLoadingTop := some true }⟩]⟩ := by
  simp [_loadMoreAsyncTop_beforeAwait, h]

/-- The top trigger does not see whether the bottom load has just been started. -/
theorem shouldLoadMoreTop_after_bottom (dev : Bool) (p : Props) (s : State) (event : Event) :
    _shouldLoadMoreTop p (_loadMoreAsyncBottom_beforeAwait dev s).state event =
      _shouldLoadMoreTop p s event := by
  have hf := loadMoreAsyncBottom_beforeAwait_frame dev s
  simp [_shouldLoadMoreTop, hf.1, hf.2.1]

/-- Claim C15.  `_handleScroll` calls the bottom loader, once, exactly when
`_shouldLoadMoreBottom` holds and the top loader, once, exactly when `_shouldLoadMoreTop`
holds, both for the state the event arrives in; the top trigger has the same value after
the bottom load has been started; and one event on short content (content 100, viewport
500, offset 0, both capabilities true, default thresholds) calls both loaders. -/
theorem handleScroll_independent :
    (∀ (dev : Bool) (p : Props) (event : Event) (s : State),
      (calls (_handleScroll dev p event s).trace).count .onLoadMoreAsyncBottom =
        (if _shouldLoadMoreBottom p s event then 1 else 0) ∧
      (calls (_handleScroll dev p event s).trace).count .onLoadMoreAsyncTop =
        (if _shouldLoadMoreTop p s event then 1 else 0) ∧
      _shouldLoadMoreTop p (_loadMoreAsyncBottom_beforeAwait dev s).state event =
        _shouldLoadMoreTop p s event) ∧
    (∀ dev : Bool,
      calls (_handleScroll dev scenarioProps shortContentEvent (constructor "ios")).trace =
        [.onLoadMoreAsyncBottom, .onLoadMoreAsyncTop]) := by
  constructor
  · intro dev p event s
    have hT := shouldLoadMoreTop_after_bottom dev p s event
    refine ⟨?_, ?_, hT⟩
    · cases hb : _shouldLoadMoreBottom p s event
      · cases ht : _shouldLoadMoreTop p s event
        · cases ho : p.onScroll <;>
            simp [_handleScroll, hb, ht, ho, calls, unexpected]
        · have hl := shouldLoadMore_not_loading ._loadMoreAsyncTop p s event ht
          have he := loadMoreAsyncTop_beforeAwait_eq dev s hl
          cases ho : p.onScroll <;>
            simp [_handleScroll, hb, ht, ho, calls, unexpected, he]
      · have hl := shouldLoadMore_not_loading ._loadMoreAsyncBottom p s event hb
        have he := loadMoreAsyncBottom_beforeAwait_eq dev s hl
        rw [he] at hT
        cases ht : _shouldLoadMoreTop p s event
        · rw [ht] at hT
          cases ho : p.onScroll <;>
            simp [_handleScroll, hb, hT, ho, calls, unexpected, he]
        · rw [ht] at hT
          have hl1 : truthy s.isLoadingTop = false :=
            shouldLoadMore_not_loading ._loadMoreAsyncTop p s event ht
          cases ho : p.onScroll <;>
            simp [_handleScroll, hb, hT, ho, calls, unexpected, he,
              _loadMoreAsyncTop_beforeAwait, hl1]
    · cases hb : _shouldLoadMoreBottom p s event
      · cases ht : _shouldLoadMoreTop p s event
        · cases ho : p.onScroll <;>
            simp [_handleScroll, hb, ht, ho, calls, unexpected]
        · have hl := shouldLoadMore_not_loading ._loadMoreAsyncTop p s event ht
          have he := loadMoreAsyncTop_beforeAwait_eq dev s hl
          cases ho : p.onScroll <;>
            simp [_handleScroll, hb, ht, ho, calls, unexpected, he]
      · have hl := shouldLoadMore_not_loading ._loadMoreAsyncBottom p s event hb
        have he := loadMoreAsyncBottom_beforeAwait_eq dev s hl
        rw [he] at hT
        cases ht : _shouldLoadMoreTop p s event
        · rw [ht] at hT
          cases ho : p.onScroll <;>
            simp [_handleScroll, hb, hT, ho, calls, unexpected, he]
        · rw [ht] at hT
          have hl1 : truthy s.isLoadingTop = false :=
            shouldLoadMore_not_loading ._loadMoreAsyncTop p s event ht
          cases ho : p.onScroll <;>
            simp [_handleScroll, hb, hT, ho, calls, unexpected, he,
              _loadMoreAsyncTop_beforeAwait, hl1]
  · intro dev
    cases dev <;> decide

/-- Claim C16.  For every state, every loader outcome and both builds: a bottom load leaves
`isLoadingTop`, `isDisplayingErrorTop` and `canShowTopIndicator` unchanged and never calls
the top loader; a top load leaves `isLoadingBottom` and `isDisplayingErrorBottom` unchanged
and never calls the bottom loader. -/
theorem loadMoreAsync_frame (dev : Bool) (p : Props) (settled : Except Err Unit) (s : State) :
    ((_loadMoreAsyncBottom dev p settled s).state.isLoadingTop = s.isLoadingTop ∧
      (_loadMoreAsyncBottom dev p settled s).state.isDisplayingErrorTop =
        s.isDisplayingErrorTop ∧
      (_loadMoreAsyncBottom dev p settled s).state.canShowTopIndicator =
        s.canShowTopIndicator ∧
      Call.onLoadMoreAsyncTop ∉ calls (_loadMoreAsyncBottom dev p settled s).trace) ∧
    ((_loadMoreAsyncTop dev p settled s).state.isLoadingBottom = s.isLoadingBottom ∧
      (_loadMoreAsyncTop dev p settled s).state.isDisplayingErrorBottom =
        s.isDisplayingErrorBottom ∧
      Call.onLoadMoreAsyncBottom ∉ calls (_loadMoreAsyncTop dev p settled s).trace) := by
  constructor
  · rcases settled with e | u <;> cases ho : p.onLoadError <;>
      cases hg : (truthy s.isLoadingBottom && dev) <;>
      simp [_loadMoreAsyncBottom, _loadMoreAsyncBottom_beforeAwait,
        _loadMoreAsyncBottom_afterAwait, calls, ho, hg]
  · rcases settled with e | u <;> cases ho : p.onLoadError <;>
      cases hc : p.canLoadMoreTop.truthy <;>
      cases hg : (truthy s.isLoadingTop && dev) <;>
      simp [_loadMoreAsyncTop, _loadMoreAsyncTop_beforeAwait,
        _loadMoreAsyncTop_afterAwait, _offsetTopIndicator, calls, ho, hc, hg]

/-- Claim C17, evaluated on the code: with `horizontal` true, the top capability true and a
reserved height of 100, `_offsetTopIndicator` calls `scrollTo(0, 100, false)` and not
`scrollTo(100, 0, false)`, while `_distanceFromTop` reads the x axis: on the event that
reports the content offset `(0, 100)` the distance from the top is 0. -/
theorem offsetTopIndicator_horizontal :
    calls (_offsetTopIndicator { scenarioProps with horizontal := true }
      (constructor "ios")).2 = [.scrollTo 0 100 false] ∧
    calls (_offsetTopIndicator { scenarioProps with horizontal := true }
      (constructor "ios")).2 ≠ [.scrollTo 100 0 false] ∧
    _distanceFromTop { scenarioProps with horizontal := true }
      ((scenarioEvent 0).withContentOffset ⟨0, 100⟩) = 0 := by
  decide

/-- What `_offsetTopIndicator` scrolls to for every orientation: `(0,
topLoadingIndicatorHeight)`, without animation, when the prop value is truthy. -/
theorem offsetTopIndicator_target (p : Props) (s : State) (h : p.canLoadMoreTop.truthy = true) :
    calls (_offsetTopIndicator p s).2 = [.scrollTo 0 p.topLoadingIndicatorHeight false] := by
  simp [_offsetTopIndicator, calls, h]

/-- Claim C19.  For every state and all props: when `isDisplayingErrorTop` is true the top
indicator is the error indicator with `_loadMoreAsyncTop` as its retry callback, and when
`isDisplayingErrorBottom` is true the bottom indicator is the error indicator with
`_loadMoreAsyncBottom` as its retry callback, whatever the capabilities. -/
theorem render_retry_wiring (p : Props) (s : State) :
    (s.isDisplayingErrorTop = true →
      (render p s).statusIndicatorTop =
        some (.error ._loadMoreAsyncTop "loading-error-indicator-top")) ∧
    (s.isDisplayingErrorBottom = true →
      (render p s).statusIndicatorBottom =
        some (.error ._loadMoreAsyncBottom "loading-error-indicator-bottom")) := by
  constructor <;> intro h <;> simp [render, h]

/-- The instance of claim C19 for the state left by a failed top load followed by a failed
bottom load, with both capabilities true. -/
theorem render_retry_wiring_witness :
    (render scenarioProps
        (_loadMoreAsyncBottom true scenarioProps (.error "offline")
          (_loadMoreAsyncTop true scenarioProps (.error "offline")
            (constructor "ios")).state).state).statusIndicatorTop =
      some (.error ._loadMoreAsyncTop "loading-error-indicator-top") ∧
    (render scenarioProps
        (_loadMoreAsyncBottom true scenarioProps (.error "offline")
          (_loadMoreAsyncTop true scenarioProps (.error "offline")
            (constructor "ios")).state).state).statusIndicatorBottom =
      some (.error ._loadMoreAsyncBottom "loading-error-indicator-bottom") :=
  ⟨(render_retry_wiring scenarioProps _).1 (by decide),
    (render_retry_wiring scenarioProps _).2 (by decide)⟩

/-- Claim C20.  With the state, the capability and the other event fields fixed: a bottom
trigger that holds keeps holding for every larger threshold and every larger scroll offset,
and a top trigger that holds keeps holding for every larger threshold and every smaller
scroll offset. -/
theorem triggers_monotone (p : Props) (s : State) (event : Event) (threshold : Int)
    (contentOffset : Point) :
    (_shouldLoadMoreBottom p s event = true →
      p.distanceToLoadMoreBottom ≤ threshold →
      scrollOffset p event ≤ scrollOffset p (event.withContentOffset contentOffset) →
      _shouldLoadMoreBottom { p with distanceToLoadMoreBottom := threshold } s
        (event.withContentOffset contentOffset) = true) ∧
    (_shouldLoadMoreTop p s event = true →
      p.distanceToLoadMoreTop ≤ threshold →
      scrollOffset p (event.withContentOffset contentOffset) ≤ scrollOffset p event →
      _shouldLoadMoreTop { p with distanceToLoadMoreTop := threshold } s
        (event.withContentOffset contentOffset) = true) := by
  constructor
  · intro h ht ho
    cases hh : p.horizontal <;>
      simp [_shouldLoadMoreBottom, _distanceFromEnd, scrollOffset, Event.withContentOffset,
        hh] at h ho ⊢ <;>
      exact ⟨⟨h.1.1, h.1.2⟩, by linarith [h.2]⟩
  · intro h ht ho
    cases hh : p.horizontal <;>
      simp [_shouldLoadMoreTop, _distanceFromTop, scrollOffset, Event.withContentOffset,
        hh] at h ho ⊢ <;>
      exact ⟨⟨h.1.1, h.1.2⟩, by linarith [h.2]⟩

/-- The instance of claim C20 for scenario A (threshold 150 raised to 200, offset 360 raised
to 400) and scenario C (threshold 50 raised to 60, offset 30 lowered to 10). -/
theorem triggers_monotone_witness :
    _shouldLoadMoreBottom { scenarioProps with distanceToLoadMoreBottom := 200 }
      (constructor "ios") ((scenarioEvent 360).withContentOffset ⟨0, 400⟩) = true ∧
    _shouldLoadMoreTop { scenarioProps with distanceToLoadMoreTop := 60 }
      (constructor "ios") ((scenarioEvent 30).withContentOffset ⟨0, 10⟩) = true :=
  ⟨(triggers_monotone scenarioProps (constructor "ios") (scenarioEvent 360) 200 ⟨0, 400⟩).1
      (by decide) (by decide) (by decide),
    (triggers_monotone scenarioProps (constructor "ios") (scenarioEvent 30) 60 ⟨0, 10⟩).2
      (by decide) (by decide) (by decide)⟩

/-- The book-keeping of a call leaves the component state alone. -/
theorem Machine.record_state (edge : Edge) (r : Option Run) (m : Machine) :
    (Machine.record edge r m).state = m.state := by
  cases r with
  | none => rfl
  | some r => cases edge <;> rfl

/-- A call of `_loadMoreAsync<Edge>` up to its `await` leaves `canShowTopIndicator` alone. -/
theorem Machine.start_canShowTopIndicator (dev : Bool) (h : Handler) (m : Machine) :
    (Machine.start dev h m).state.canShowTopIndicator = m.state.canShowTopIndicator := by
  cases h
  · simp only [Machine.start, Machine.record_state, Handler.call]
    exact (loadMoreAsyncTop_beforeAwait_frame dev m.state).2.2
  · simp only [Machine.start, Machine.record_state, Handler.call]
    exact (loadMoreAsyncBottom_beforeAwait_frame dev m.state).2.2

/-- An event other than a call of `_offsetTopIndicator` for `componentDidMount` and the
settling of a top load leaves `canShowTopIndicator` alone. -/
theorem Machine.step_canShowTopIndicator (dev : Bool) (m m1 : Machine) (a : Action)
    (ho : a.isOffset = false) (ht : a.settlesTop = false)
    (hs : Machine.step dev m a = some m1) :
    m1.state.canShowTopIndicator = m.state.canShowTopIndicator := by
  cases a with
  | scroll p event =>
    simp only [Machine.step, Option.some.injEq] at hs
    subst hs
    rw [Machine.scroll_eq]
    have h1 : (if _shouldLoadMoreBottom p m.state event
        then Machine.start dev ._loadMoreAsyncBottom m else m).state.canShowTopIndicator =
        m.state.canShowTopIndicator := by
      split
      · exact Machine.start_canShowTopIndicator dev _ m
      · rfl
    generalize (if _shouldLoadMoreBottom p m.state event
        then Machine.start dev ._loadMoreAsyncBottom m else m) = m1 at h1
    show (if _shouldLoadMoreTop p m1.state event
        then Machine.start dev ._loadMoreAsyncTop m1 else m1).state.canShowTopIndicator = _
    split
    · rw [Machine.start_canShowTopIndicator, h1]
    · exact h1
  | retry edge p =>
    simp only [Machine.step] at hs
    split at hs
    · simp only [Option.some.injEq] at hs
      subst hs
      exact Machine.start_canShowTopIndicator dev _ m
    · cases hs
  | settle edge p settled =>
    cases edge
    · simp [Action.settlesTop] at ht
    · simp only [Machine.step] at hs
      split at hs
      · cases hs
      · simp only [Option.some.injEq] at hs
        subst hs
        rcases settled with e | u <;> simp [_loadMoreAsyncBottom_afterAwait]
  | offset p => simp [Action.isOffset] at ho

/-- A sequence of such events leaves `canShowTopIndicator` alone. -/
theorem Machine.run_canShowTopIndicator (dev : Bool) (actions : List Action) (m m1 : Machine)
    (hno : ∀ a ∈ actions, a.isOffset = false ∧ a.settlesTop = false)
    (hr : Machine.run dev m actions = some m1) :
    m1.state.canShowTopIndicator = m.state.canShowTopIndicator := by
  induction actions generalizing m with
  | nil =>
    simp only [Machine.run, Option.some.injEq] at hr
    subst hr
    rfl
  | cons a rest ih =>
    simp only [Machine.run] at hr
    split at hr
    · next m2 hs =>
      have ha := hno a (List.mem_cons_self a rest)
      rw [ih m2 (fun b hb => hno b (List.mem_cons_of_mem a hb)) hr]
      exact Machine.step_canShowTopIndicator dev m m2 a ha.1 ha.2 hs
    · cases hr

/-- Claim C18 as stated fails: on android, in `topLoadRun`, no call of `_offsetTopIndicator`
has been made for `componentDidMount`, and yet `canShowTopIndicator` is true at the end,
because the `finally` block of the top load calls `_offsetTopIndicator`. -/
theorem canShowTopIndicator_not_held :
    (∀ a ∈ topLoadRun, a.isOffset = false) ∧
    (Machine.initial "android").state.canShowTopIndicator = false ∧
    (Machine.run true (Machine.initial "android") topLoadRun).map
      (fun m => m.state.canShowTopIndicator) = some true := by
  refine ⟨?_, by decide, by decide⟩
  intro a ha
  simp only [topLoadRun, List.mem_cons, List.mem_singleton, List.not_mem_nil, or_false] at ha
  rcases ha with rfl | rfl <;> rfl

/-- Claim C18 as amended.  On android `canShowTopIndicator` is false in the constructed
state, `componentDidMount` defers its call of `_offsetTopIndicator` and changes nothing,
and the flag stays false through every sequence of events that holds neither the deferred
call nor the settling of a top load: scroll events, started loads, retries and settled
bottom loads leave it false.  On every other platform it is true from construction. -/
theorem canShowTopIndicator_held (dev : Bool) (actions : List Action) (m : Machine)
    (hno : ∀ a ∈ actions, a.isOffset = false ∧ a.settlesTop = false)
    (hr : Machine.run dev (Machine.initial "android") actions = some m) :
    (constructor "android").canShowTopIndicator = false ∧
    (∀ p : Props,
      (componentDidMount "android" p (constructor "android")).deferred = true ∧
      (componentDidMount "android" p (constructor "android")).state = constructor "android" ∧
      (componentDidMount "android" p (constructor "android")).trace = []) ∧
    m.state.canShowTopIndicator = false ∧
    ∀ platformOS : String, platformOS ≠ "android" →
      (constructor platformOS).canShowTopIndicator = true := by
  refine ⟨by decide, fun p => ⟨rfl, rfl, rfl⟩, ?_, ?_⟩
  · rw [Machine.run_canShowTopIndicator dev actions _ m hno hr]
    decide
  · intro platformOS h
    simp [constructor, h]

/-- The instance of amended claim C18 for `shortContentRun` without its last event: two
scroll events, a failed bottom load and its retry, while the top load is still awaiting its
loader. -/
theorem canShowTopIndicator_held_witness :
    Machine.run false (Machine.initial "android") shortContentRun.dropLast =
      some ⟨⟨some true, some true, false, false, false⟩, 1, 1, 0⟩ ∧
    ((constructor "android").canShowTopIndicator = false ∧
      (∀ p : Props,
        (componentDidMount "android" p (constructor "android")).deferred = true ∧
        (componentDidMount "android" p (constructor "android")).state = constructor "android" ∧
        (componentDidMount "android" p (constructor "android")).trace = []) ∧
      false = false ∧
      ∀ platformOS : String, platformOS ≠ "android" →
        (constructor platformOS).canShowTopIndicator = true) :=
  ⟨by decide,
    canShowTopIndicator_held false shortContentRun.dropLast
      ⟨⟨some true, some true, false, false, false⟩, 1, 1, 0⟩
      (by
        intro a ha
        simp only [shortContentRun, List.dropLast, List.mem_cons, List.mem_singleton,
          List.not_mem_nil, or_false] at ha
        rcases ha with rfl | rfl | rfl | rfl <;> exact ⟨rfl, rfl⟩)
      (by decide)⟩

end InfiniteScrollView
